import Mathlib

/-!
Shallow embedding of the NES emulator core (CPU interpreter, memory bus,
NROM mapper, PPU register interface) translated from the Rust sources
`src/crates/res-core/src/cpu.rs`, `src/crates/res-core/src/apu.rs`,
`src/src/ppu.rs`, `src/src/mapper.rs`, `src/src/rom.rs` and
`src/src/opcodes.rs`.

Conventions: machine integers (u8/u16) are `Nat` with explicit `% 256` /
`% 0x10000` at the points where the source performs a wrapping operation
or a narrowing cast; byte arrays are functions `Nat → Nat`; `Vec<u8>` is
`List Nat`; Rust interior mutability (the CPU reads that mutate the PPU
through a `RefCell`) is modelled by explicit state passing, so `mem_read`
returns the value together with the successor state; fallible indexing
(`self.prg_rom[mapped]`, which panics out of bounds) is modelled by the
`Option`-returning list lookup.
-/

namespace Res

/-- Write one cell of a byte map (models `array[addr] = data`). -/
def memUpdate (f : Nat → Nat) (addr data : Nat) : Nat → Nat :=
  fun a => if a = addr then data else f a

/-- Write a list of bytes at consecutive addresses
(models `slice.copy_from_slice`). -/
def writeList : (Nat → Nat) → Nat → List Nat → (Nat → Nat)
  | f, _, [] => f
  | f, i, d :: rest => writeList (memUpdate f i d) (i + 1) rest

/-- Reinterpret a u8 as i8 and sign-extend to u16 (`jump as i8 ... as u16`
in `CPU::branch`). -/
def i8AsU16 (d : Nat) : Nat :=
  if d % 256 < 0x80 then d % 256 else 0xFF00 + d % 256

/-- The operand actually fed to `add_to_register_a` by `CPU::sbc`:
`((data as i8).wrapping_neg().wrapping_sub(1)) as u8` on the byte pattern. -/
def sbcOperand (d : Nat) : Nat :=
  ((256 - d % 256) % 256 + 255) % 256

/-- CpuFlags bit masks from the `bitflags!` block in cpu.rs. -/
abbrev CpuFlags.CARRY : Nat := 0b00000001

abbrev CpuFlags.ZERO : Nat := 0b00000010

abbrev CpuFlags.INTERRUPT_DISABLE : Nat := 0b00000100

abbrev CpuFlags.DECIMAL_MODE : Nat := 0b00001000

abbrev CpuFlags.BREAK : Nat := 0b00010000

abbrev CpuFlags.BREAK2 : Nat := 0b00100000

abbrev CpuFlags.OVERFLOW : Nat := 0b01000000

abbrev CpuFlags.NEGATIV : Nat := 0b10000000

/-- bitflags `contains`: `self.bits & other.bits == other.bits`. -/
def containsFlag (s m : Nat) : Bool := (s &&& m) == m

/-- bitflags `insert`: `self.bits |= other.bits`. -/
def insertFlag (s m : Nat) : Nat := s ||| m

/-- bitflags `remove` on a u8 carrier: `self.bits &= !other.bits`. -/
def removeFlag (s m : Nat) : Nat := s &&& (0xFF ^^^ m)

/-- bitflags `set`. -/
def setFlag (s m : Nat) (b : Bool) : Nat :=
  if b then insertFlag s m else removeFlag s m

/-- Nametable mirroring tag (rom.rs). -/
inductive Mirroring
  | Horizontal
  | Vertical
  | FourScreen
deriving DecidableEq, Repr

/-- Mapper construction error (mapper.rs). -/
inductive MapperError
  | invalidPrgSize (size : Nat)
deriving DecidableEq, Repr

/-- NROM cartridge mapper state (mapper.rs). -/
structure NromMapper where
  prg_rom : List Nat
  chr : List Nat
  chr_is_ram : Bool
deriving DecidableEq, Repr

/-- `NromMapper::new`: accepts PRG of exactly 0x4000 or 0x8000 bytes;
with `has_chr_ram` the CHR area is a zeroed 8 KiB RAM. -/
def NromMapper.new (prg_rom chr_rom : List Nat) (has_chr_ram : Bool) :
    Except MapperError NromMapper :=
  if prg_rom.length = 0x4000 ∨ prg_rom.length = 0x8000 then
    let p := if has_chr_ram then (List.replicate 0x2000 0, true) else (chr_rom, false)
    .ok { prg_rom := prg_rom, chr := p.1, chr_is_ram := p.2 }
  else
    .error (.invalidPrgSize prg_rom.length)

/-- `NromMapper::cpu_read`: `None` outside `$8000-$FFFF`, otherwise the PRG
byte at the mirrored offset.  The source indexes `self.prg_rom[mapped]`
(a panic when out of bounds); the panic case is modelled by the
`Option`-returning lookup. -/
def NromMapper.cpuRead (m : NromMapper) (addr : Nat) : Option Nat :=
  if 0x8000 ≤ addr ∧ addr ≤ 0xFFFF then
    let mapped := if m.prg_rom.length = 0x4000 then (addr - 0x8000) % 0x4000 else addr - 0x8000
    m.prg_rom[mapped]?
  else
    none

/-- `NromMapper::cpu_write`: absorbs (and discards) every PRG-range write. -/
def NromMapper.cpuWrite (_m : NromMapper) (addr : Nat) (_data : Nat) : Bool :=
  decide (0x8000 ≤ addr ∧ addr ≤ 0xFFFF)

/-- APU register stub (apu.rs). -/
structure Apu where
  registers : Nat → Nat

def Apu.new : Apu := ⟨fun _ => 0⟩

def Apu.isApuRegister (addr : Nat) : Bool :=
  decide (0x4000 ≤ addr ∧ addr ≤ 0x4017)

def Apu.writeRegister (a : Apu) (addr data : Nat) : Apu :=
  if Apu.isApuRegister addr then ⟨memUpdate a.registers (addr - 0x4000) data⟩ else a

def Apu.readRegister (a : Apu) (addr : Nat) : Nat :=
  if ¬ Apu.isApuRegister addr then 0
  else if addr = 0x4015 then a.registers (addr - 0x4000)
  else 0

/-- PPU state (ppu.rs).  The `mapper` field is modelled from the spec: the
res-core variant of the PPU holds a co-owned mapper handle installed via
`set_mapper` (`src/crates/res-core/src/ppu.rs` is not under `src/`; the
spec states the mapper is co-owned by CPU and PPU and rewired by
`load_cartridge` / cleared by `load_prg_rom`). -/
structure Ppu where
  ctrl : Nat
  mask : Nat
  status : Nat
  oamAddr : Nat
  addrLatch : Bool
  scrollLatch : Bool
  vramAddr : Nat
  tempVramAddr : Nat
  readBuffer : Nat
  vram : Nat → Nat
  paletteTable : Nat → Nat
  oamData : Nat → Nat
  mirroring : Mirroring
  mapper : Option NromMapper

/-- `Ppu::new`. -/
def Ppu.new (mirroring : Mirroring) : Ppu where
  ctrl := 0
  mask := 0
  status := 0
  oamAddr := 0
  addrLatch := false
  scrollLatch := false
  vramAddr := 0
  tempVramAddr := 0
  readBuffer := 0
  vram := fun _ => 0
  paletteTable := fun _ => 0
  oamData := fun _ => 0
  mirroring := mirroring
  mapper := none

def Ppu.setMirroring (p : Ppu) (m : Mirroring) : Ppu := { p with mirroring := m }

/-- Modelled from the spec: setter for the co-owned mapper handle of the
res-core PPU (`set_mapper`), whose source file is not under `src/`. -/
def Ppu.setMapper (p : Ppu) (m : Option NromMapper) : Ppu := { p with mapper := m }

/-- `Ppu::mirror_vram_addr`: map a nametable address to an index into the
2 KiB internal VRAM.  The `unreachable!` arm of the source (table ≥ 4) is
modelled as 0. -/
def Ppu.mirrorVramAddr (p : Ppu) (addr : Nat) : Nat :=
  let vramIndex := addr - 0x2000
  let table := vramIndex / 0x400
  let offset := vramIndex % 0x400
  let mappedTable : Nat :=
    match p.mirroring with
    | .Vertical =>
      match table with
      | 0 => 0
      | 2 => 0
      | 1 => 1
      | 3 => 1
      | _ => 0
    | .Horizontal =>
      match table with
      | 0 => 0
      | 1 => 0
      | 2 => 1
      | 3 => 1
      | _ => 0
    | .FourScreen =>
      match table with
      | 0 => 0
      | 2 => 0
      | 1 => 1
      | 3 => 1
      | _ => 0
  mappedTable * 0x400 + offset

/-- `Ppu::mirror_palette_addr`. -/
def Ppu.mirrorPaletteAddr (addr : Nat) : Nat :=
  let idx := (addr - 0x3F00) % 0x20
  if idx = 0x10 ∨ idx = 0x14 ∨ idx = 0x18 ∨ idx = 0x1C then idx - 0x10 else idx

/-- `Ppu::ppu_mem_read`. -/
def Ppu.ppuMemRead (p : Ppu) (addr : Nat) : Nat :=
  if addr ≤ 0x1FFF then 0
  else if addr ≤ 0x2FFF then p.vram (p.mirrorVramAddr addr)
  else if addr ≤ 0x3EFF then p.vram (p.mirrorVramAddr (addr - 0x1000))
  else if addr ≤ 0x3FFF then p.paletteTable (Ppu.mirrorPaletteAddr addr)
  else 0

/-- `Ppu::ppu_mem_write`. -/
def Ppu.ppuMemWrite (p : Ppu) (addr data : Nat) : Ppu :=
  if addr ≤ 0x1FFF then p
  else if addr ≤ 0x2FFF then
    { p with vram := memUpdate p.vram (p.mirrorVramAddr addr) data }
  else if addr ≤ 0x3EFF then
    { p with vram := memUpdate p.vram (p.mirrorVramAddr (addr - 0x1000)) data }
  else if addr ≤ 0x3FFF then
    { p with paletteTable := memUpdate p.paletteTable (Ppu.mirrorPaletteAddr addr) data }
  else p

/-- `Ppu::vram_addr_increment`: 32 when CTRL bit 2 is set, else 1. -/
def Ppu.vramAddrIncrement (p : Ppu) : Nat :=
  if p.ctrl &&& 0x04 ≠ 0 then 32 else 1

/-- `Ppu::normalize_ppu_addr`. -/
def Ppu.normalizePpuAddr (_p : Ppu) (addr : Nat) : Nat := addr &&& 0x3FFF

/-- `Ppu::read_ppu_data`: the buffered `$2007` read.  Palette-range reads
return the fresh byte and refresh the buffer from `addr - 0x1000`;
others return the previous buffer. -/
def Ppu.readPpuData (p : Ppu) : Nat × Ppu :=
  let addr := p.normalizePpuAddr p.vramAddr
  let r : Nat × Ppu :=
    if 0x3F00 ≤ addr then
      (p.ppuMemRead addr,
       { p with readBuffer := p.ppuMemRead ((addr + 0x10000 - 0x1000) % 0x10000) })
    else
      (p.readBuffer, { p with readBuffer := p.ppuMemRead addr })
  (r.1, { r.2 with vramAddr := (r.2.vramAddr + r.2.vramAddrIncrement) % 0x10000 })

/-- `Ppu::write_ppu_data`. -/
def Ppu.writePpuData (p : Ppu) (data : Nat) : Ppu :=
  let addr := p.normalizePpuAddr p.vramAddr
  let p1 := p.ppuMemWrite addr data
  { p1 with vramAddr := (p1.vramAddr + p1.vramAddrIncrement) % 0x10000 }

/-- `Ppu::read_register` (the register index is already mirror-reduced by
the bus).  Reading `$2002` returns STATUS, clears its bit 7 and resets
both write latches; reading `$2004` returns the OAM byte; `$2007` is the
buffered data read. -/
def Ppu.readRegister (p : Ppu) (reg : Nat) : Nat × Ppu :=
  if reg = 0x2000 ∨ reg = 0x2001 ∨ reg = 0x2003 ∨ reg = 0x2005 ∨ reg = 0x2006 then
    (0, p)
  else if reg = 0x2002 then
    (p.status,
     { p with status := p.status &&& 0x7F, addrLatch := false, scrollLatch := false })
  else if reg = 0x2004 then
    (p.oamData p.oamAddr, p)
  else if reg = 0x2007 then
    p.readPpuData
  else
    (0, p)

/-- `Ppu::write_register`.  The complement masks `!0x0C00`, `!0x001F` and
`!0x73E0` of the u16 source are written as the 16-bit literals
`0xF3FF`, `0xFFE0` and `0x8C1F`. -/
def Ppu.writeRegister (p : Ppu) (reg data : Nat) : Ppu :=
  if reg = 0x2000 then
    { p with ctrl := data,
             tempVramAddr := (p.tempVramAddr &&& 0xF3FF) ||| ((data &&& 0x03) <<< 10) }
  else if reg = 0x2001 then
    { p with mask := data }
  else if reg = 0x2002 then
    p
  else if reg = 0x2003 then
    { p with oamAddr := data }
  else if reg = 0x2004 then
    { p with oamData := memUpdate p.oamData p.oamAddr data,
             oamAddr := (p.oamAddr + 1) % 256 }
  else if reg = 0x2005 then
    if !p.scrollLatch then
      { p with tempVramAddr := (p.tempVramAddr &&& 0xFFE0) ||| (data >>> 3),
               scrollLatch := true }
    else
      { p with tempVramAddr := (p.tempVramAddr &&& 0x8C1F)
                 ||| ((data &&& 0x07) <<< 12) ||| ((data &&& 0xF8) <<< 2),
               scrollLatch := false }
  else if reg = 0x2006 then
    if !p.addrLatch then
      { p with tempVramAddr := (p.tempVramAddr &&& 0x00FF) ||| ((data &&& 0x3F) <<< 8),
               addrLatch := true }
    else
      let t := (p.tempVramAddr &&& 0xFF00) ||| data
      { p with tempVramAddr := t, vramAddr := t, addrLatch := false }
  else if reg = 0x2007 then
    p.writePpuData data
  else
    p

/-- Addressing modes (cpu.rs). -/
inductive AddressingMode
  | Immediate
  | ZeroPage
  | ZeroPage_X
  | ZeroPage_Y
  | Absolute
  | Absolute_X
  | Absolute_Y
  | Indirect_X
  | Indirect_Y
  | NoneAddressing
deriving DecidableEq, Repr

/-- Interpreter error (cpu.rs `CpuError`). -/
inductive CpuError
  | unsupportedOpcode (opcode : Nat) (pc : Nat)
deriving DecidableEq, Repr

/-- Loader error (cpu.rs `CpuLoadError`). -/
inductive CpuLoadError
  | invalidPrgSize (size : Nat)
  | unsupportedMapper (id : Nat)
deriving DecidableEq, Repr

/-- Parsed iNES cartridge image (rom.rs).  The `has_chr_ram` field is
modelled from the spec: the res-core variant of `Rom` carries it (the
spec's cartridge image has "a `has_chr_ram` flag (true when header
advertised zero CHR banks)") and `load_cartridge` reads it, but
`src/src/rom.rs` predates the field. -/
structure Rom where
  prg_rom : List Nat
  chr_rom : List Nat
  mapper : Nat
  mirroring : Mirroring
  has_chr_ram : Bool

/-- Opcode-table record (opcodes.rs `OpCode`). -/
structure OpCode where
  code : Nat
  mnemonic : String
  len : Nat
  cycles : Nat
  mode : AddressingMode

/-- The opcode table.  The entries for BRK, TAX, INX and the LDA and STA
families are transcribed from `src/src/opcodes.rs`; the remaining
documented-6502 entries are modelled from the spec (the res-core table,
`src/crates/res-core/src/opcodes.rs`, is not under `src/`; the spec fixes
the record shape `(mnemonic, length, base cycles, addressing mode)`, the
documented instruction set of §4.3.1, and the base cycle counts through
its cycle scenarios, e.g. LDA#=2, TAX=2, BRK=7, branches=2, NOP=2). -/
def opcodesList0 : List OpCode := [
  ⟨0x00, "BRK", 1, 7, .NoneAddressing⟩,
  ⟨0xea, "NOP", 1, 2, .NoneAddressing⟩,
  ⟨0xaa, "TAX", 1, 2, .NoneAddressing⟩,
  ⟨0xa8, "TAY", 1, 2, .NoneAddressing⟩,
  ⟨0xba, "TSX", 1, 2, .NoneAddressing⟩,
  ⟨0x8a, "TXA", 1, 2, .NoneAddressing⟩,
  ⟨0x9a, "TXS", 1, 2, .NoneAddressing⟩,
  ⟨0x98, "TYA", 1, 2, .NoneAddressing⟩,
  ⟨0xe8, "INX", 1, 2, .NoneAddressing⟩,
  ⟨0xc8, "INY", 1, 2, .NoneAddressing⟩,
  ⟨0xca, "DEX", 1, 2, .NoneAddressing⟩,
  ⟨0x88, "DEY", 1, 2, .NoneAddressing⟩,
  ⟨0xa9, "LDA", 2, 2, .Immediate⟩,
  ⟨0xa5, "LDA", 2, 3, .ZeroPage⟩,
  ⟨0xb5, "LDA", 2, 4, .ZeroPage_X⟩,
  ⟨0xad, "LDA", 3, 4, .Absolute⟩,
  ⟨0xbd, "LDA", 3, 4, .Absolute_X⟩,
  ⟨0xb9, "LDA", 3, 4, .Absolute_Y⟩,
  ⟨0xa1, "LDA", 2, 6, .Indirect_X⟩,
  ⟨0xb1, "LDA", 2, 5, .Indirect_Y⟩
]


def opcodesList1 : List OpCode := [
  ⟨0xa2, "LDX", 2, 2, .Immediate⟩,
  ⟨0xa6, "LDX", 2, 3, .ZeroPage⟩,
  ⟨0xb6, "LDX", 2, 4, .ZeroPage_Y⟩,
  ⟨0xae, "LDX", 3, 4, .Absolute⟩,
  ⟨0xbe, "LDX", 3, 4, .Absolute_Y⟩,
  ⟨0xa0, "LDY", 2, 2, .Immediate⟩,
  ⟨0xa4, "LDY", 2, 3, .ZeroPage⟩,
  ⟨0xb4, "LDY", 2, 4, .ZeroPage_X⟩,
  ⟨0xac, "LDY", 3, 4, .Absolute⟩,
  ⟨0xbc, "LDY", 3, 4, .Absolute_X⟩,
  ⟨0x85, "STA", 2, 3, .ZeroPage⟩,
  ⟨0x95, "STA", 2, 4, .ZeroPage_X⟩,
  ⟨0x8d, "STA", 3, 4, .Absolute⟩,
  ⟨0x9d, "STA", 3, 5, .Absolute_X⟩,
  ⟨0x99, "STA", 3, 5, .Absolute_Y⟩,
  ⟨0x81, "STA", 2, 6, .Indirect_X⟩,
  ⟨0x91, "STA", 2, 6, .Indirect_Y⟩,
  ⟨0x86, "STX", 2, 3, .ZeroPage⟩,
  ⟨0x96, "STX", 2, 4, .ZeroPage_Y⟩,
  ⟨0x8e, "STX", 3, 4, .Absolute⟩
]


def opcodesList2 : List OpCode := [
  ⟨0x84, "STY", 2, 3, .ZeroPage⟩,
  ⟨0x94, "STY", 2, 4, .ZeroPage_X⟩,
  ⟨0x8c, "STY", 3, 4, .Absolute⟩,
  ⟨0x69, "ADC", 2, 2, .Immediate⟩,
  ⟨0x65, "ADC", 2, 3, .ZeroPage⟩,
  ⟨0x75, "ADC", 2, 4, .ZeroPage_X⟩,
  ⟨0x6d, "ADC", 3, 4, .Absolute⟩,
  ⟨0x7d, "ADC", 3, 4, .Absolute_X⟩,
  ⟨0x79, "ADC", 3, 4, .Absolute_Y⟩,
  ⟨0x61, "ADC", 2, 6, .Indirect_X⟩,
  ⟨0x71, "ADC", 2, 5, .Indirect_Y⟩,
  ⟨0xe9, "SBC", 2, 2, .Immediate⟩,
  ⟨0xe5, "SBC", 2, 3, .ZeroPage⟩,
  ⟨0xf5, "SBC", 2, 4, .ZeroPage_X⟩,
  ⟨0xed, "SBC", 3, 4, .Absolute⟩,
  ⟨0xfd, "SBC", 3, 4, .Absolute_X⟩,
  ⟨0xf9, "SBC", 3, 4, .Absolute_Y⟩,
  ⟨0xe1, "SBC", 2, 6, .Indirect_X⟩,
  ⟨0xf1, "SBC", 2, 5, .Indirect_Y⟩,
  ⟨0x29, "AND", 2, 2, .Immediate⟩
]


def opcodesList3 : List OpCode := [
  ⟨0x25, "AND", 2, 3, .ZeroPage⟩,
  ⟨0x35, "AND", 2, 4, .ZeroPage_X⟩,
  ⟨0x2d, "AND", 3, 4, .Absolute⟩,
  ⟨0x3d, "AND", 3, 4, .Absolute_X⟩,
  ⟨0x39, "AND", 3, 4, .Absolute_Y⟩,
  ⟨0x21, "AND", 2, 6, .Indirect_X⟩,
  ⟨0x31, "AND", 2, 5, .Indirect_Y⟩,
  ⟨0x49, "EOR", 2, 2, .Immediate⟩,
  ⟨0x45, "EOR", 2, 3, .ZeroPage⟩,
  ⟨0x55, "EOR", 2, 4, .ZeroPage_X⟩,
  ⟨0x4d, "EOR", 3, 4, .Absolute⟩,
  ⟨0x5d, "EOR", 3, 4, .Absolute_X⟩,
  ⟨0x59, "EOR", 3, 4, .Absolute_Y⟩,
  ⟨0x41, "EOR", 2, 6, .Indirect_X⟩,
  ⟨0x51, "EOR", 2, 5, .Indirect_Y⟩,
  ⟨0x09, "ORA", 2, 2, .Immediate⟩,
  ⟨0x05, "ORA", 2, 3, .ZeroPage⟩,
  ⟨0x15, "ORA", 2, 4, .ZeroPage_X⟩,
  ⟨0x0d, "ORA", 3, 4, .Absolute⟩,
  ⟨0x1d, "ORA", 3, 4, .Absolute_X⟩
]


def opcodesList4 : List OpCode := [
  ⟨0x19, "ORA", 3, 4, .Absolute_Y⟩,
  ⟨0x01, "ORA", 2, 6, .Indirect_X⟩,
  ⟨0x11, "ORA", 2, 5, .Indirect_Y⟩,
  ⟨0x0a, "ASL", 1, 2, .NoneAddressing⟩,
  ⟨0x06, "ASL", 2, 5, .ZeroPage⟩,
  ⟨0x16, "ASL", 2, 6, .ZeroPage_X⟩,
  ⟨0x0e, "ASL", 3, 6, .Absolute⟩,
  ⟨0x1e, "ASL", 3, 7, .Absolute_X⟩,
  ⟨0x4a, "LSR", 1, 2, .NoneAddressing⟩,
  ⟨0x46, "LSR", 2, 5, .ZeroPage⟩,
  ⟨0x56, "LSR", 2, 6, .ZeroPage_X⟩,
  ⟨0x4e, "LSR", 3, 6, .Absolute⟩,
  ⟨0x5e, "LSR", 3, 7, .Absolute_X⟩,
  ⟨0x2a, "ROL", 1, 2, .NoneAddressing⟩,
  ⟨0x26, "ROL", 2, 5, .ZeroPage⟩,
  ⟨0x36, "ROL", 2, 6, .ZeroPage_X⟩,
  ⟨0x2e, "ROL", 3, 6, .Absolute⟩,
  ⟨0x3e, "ROL", 3, 7, .Absolute_X⟩,
  ⟨0x6a, "ROR", 1, 2, .NoneAddressing⟩,
  ⟨0x66, "ROR", 2, 5, .ZeroPage⟩
]


def opcodesList5 : List OpCode := [
  ⟨0x76, "ROR", 2, 6, .ZeroPage_X⟩,
  ⟨0x6e, "ROR", 3, 6, .Absolute⟩,
  ⟨0x7e, "ROR", 3, 7, .Absolute_X⟩,
  ⟨0xe6, "INC", 2, 5, .ZeroPage⟩,
  ⟨0xf6, "INC", 2, 6, .ZeroPage_X⟩,
  ⟨0xee, "INC", 3, 6, .Absolute⟩,
  ⟨0xfe, "INC", 3, 7, .Absolute_X⟩,
  ⟨0xc6, "DEC", 2, 5, .ZeroPage⟩,
  ⟨0xd6, "DEC", 2, 6, .ZeroPage_X⟩,
  ⟨0xce, "DEC", 3, 6, .Absolute⟩,
  ⟨0xde, "DEC", 3, 7, .Absolute_X⟩,
  ⟨0xc9, "CMP", 2, 2, .Immediate⟩,
  ⟨0xc5, "CMP", 2, 3, .ZeroPage⟩,
  ⟨0xd5, "CMP", 2, 4, .ZeroPage_X⟩,
  ⟨0xcd, "CMP", 3, 4, .Absolute⟩,
  ⟨0xdd, "CMP", 3, 4, .Absolute_X⟩,
  ⟨0xd9, "CMP", 3, 4, .Absolute_Y⟩,
  ⟨0xc1, "CMP", 2, 6, .Indirect_X⟩,
  ⟨0xd1, "CMP", 2, 5, .Indirect_Y⟩,
  ⟨0xe0, "CPX", 2, 2, .Immediate⟩
]


def opcodesList6 : List OpCode := [
  ⟨0xe4, "CPX", 2, 3, .ZeroPage⟩,
  ⟨0xec, "CPX", 3, 4, .Absolute⟩,
  ⟨0xc0, "CPY", 2, 2, .Immediate⟩,
  ⟨0xc4, "CPY", 2, 3, .ZeroPage⟩,
  ⟨0xcc, "CPY", 3, 4, .Absolute⟩,
  ⟨0x24, "BIT", 2, 3, .ZeroPage⟩,
  ⟨0x2c, "BIT", 3, 4, .Absolute⟩,
  ⟨0x4c, "JMP", 3, 3, .NoneAddressing⟩,
  ⟨0x6c, "JMP", 3, 5, .NoneAddressing⟩,
  ⟨0x20, "JSR", 3, 6, .NoneAddressing⟩,
  ⟨0x60, "RTS", 1, 6, .NoneAddressing⟩,
  ⟨0x40, "RTI", 1, 6, .NoneAddressing⟩,
  ⟨0x48, "PHA", 1, 3, .NoneAddressing⟩,
  ⟨0x68, "PLA", 1, 4, .NoneAddressing⟩,
  ⟨0x08, "PHP", 1, 3, .NoneAddressing⟩,
  ⟨0x28, "PLP", 1, 4, .NoneAddressing⟩,
  ⟨0x10, "BPL", 2, 2, .NoneAddressing⟩,
  ⟨0x30, "BMI", 2, 2, .NoneAddressing⟩,
  ⟨0x50, "BVC", 2, 2, .NoneAddressing⟩,
  ⟨0x70, "BVS", 2, 2, .NoneAddressing⟩
]


def opcodesList7 : List OpCode := [
  ⟨0x90, "BCC", 2, 2, .NoneAddressing⟩,
  ⟨0xb0, "BCS", 2, 2, .NoneAddressing⟩,
  ⟨0xd0, "BNE", 2, 2, .NoneAddressing⟩,
  ⟨0xf0, "BEQ", 2, 2, .NoneAddressing⟩,
  ⟨0x18, "CLC", 1, 2, .NoneAddressing⟩,
  ⟨0x38, "SEC", 1, 2, .NoneAddressing⟩,
  ⟨0x58, "CLI", 1, 2, .NoneAddressing⟩,
  ⟨0x78, "SEI", 1, 2, .NoneAddressing⟩,
  ⟨0xd8, "CLD", 1, 2, .NoneAddressing⟩,
  ⟨0xf8, "SED", 1, 2, .NoneAddressing⟩,
  ⟨0xb8, "CLV", 1, 2, .NoneAddressing⟩
]


/-- The full table as one list. -/
def opcodesList : List OpCode :=
  opcodesList0 ++ opcodesList1 ++ opcodesList2 ++ opcodesList3 ++ opcodesList4 ++ opcodesList5 ++ opcodesList6 ++ opcodesList7

/-- `OPCODES_MAP` lookup. -/
def opcodesMap (code : Nat) : Option OpCode :=
  opcodesList.find? (fun o => o.code == code)

/-- CPU state (cpu.rs).  The shared `Rc<RefCell<dyn Mapper>>` handle is
modelled by value in both the CPU and the PPU; the single-threaded
contract of the source (spec §5) makes the two copies agree. -/
structure CPU where
  registerA : Nat
  registerX : Nat
  registerY : Nat
  status : Nat
  programCounter : Nat
  stackPointer : Nat
  cycles : Nat
  memory : Nat → Nat
  apu : Apu
  ppu : Ppu
  mapper : Option NromMapper

/-- `CPU::new`. -/
def CPU.new : CPU where
  registerA := 0
  registerX := 0
  registerY := 0
  status := 0b100100
  programCounter := 0
  stackPointer := 0xFD
  cycles := 0
  memory := fun _ => 0
  apu := Apu.new
  ppu := Ppu.new .Horizontal
  mapper := none

/-- `Mem::mem_read` for `CPU`: APU window, mirror-reduced PPU window
(whose read may mutate the PPU; the successor state is returned),
mapper-first PRG window, else internal memory. -/
def CPU.memRead (c : CPU) (addr : Nat) : Nat × CPU :=
  if 0x4000 ≤ addr ∧ addr ≤ 0x4017 then
    (c.apu.readRegister addr, c)
  else if 0x2000 ≤ addr ∧ addr ≤ 0x3FFF then
    let reg := 0x2000 + (addr - 0x2000) % 8
    let r := c.ppu.readRegister reg
    (r.1, { c with ppu := r.2 })
  else if 0x8000 ≤ addr ∧ addr ≤ 0xFFFF then
    match c.mapper with
    | some m =>
      match m.cpuRead addr with
      | some data => (data, c)
      | none => (c.memory addr, c)
    | none => (c.memory addr, c)
  else
    (c.memory addr, c)

/-- `Mem::mem_write` for `CPU`. -/
def CPU.memWrite (c : CPU) (addr data : Nat) : CPU :=
  if 0x4000 ≤ addr ∧ addr ≤ 0x4017 then
    { c with apu := c.apu.writeRegister addr data }
  else if 0x2000 ≤ addr ∧ addr ≤ 0x3FFF then
    let reg := 0x2000 + (addr - 0x2000) % 8
    { c with ppu := c.ppu.writeRegister reg data }
  else if 0x8000 ≤ addr ∧ addr ≤ 0xFFFF then
    match c.mapper with
    | some m =>
      if m.cpuWrite addr data then c
      else { c with memory := memUpdate c.memory addr data }
    | none => { c with memory := memUpdate c.memory addr data }
  else
    { c with memory := memUpdate c.memory addr data }

/-- `Mem::mem_read_u16` (little endian, address wraps at `$FFFF`). -/
def CPU.memReadU16 (c : CPU) (pos : Nat) : Nat × CPU :=
  let lo := c.memRead pos
  let hi := lo.2.memRead ((pos + 1) % 0x10000)
  ((hi.1 <<< 8) ||| lo.1, hi.2)

/-- `Mem::mem_write_u16`. -/
def CPU.memWriteU16 (c : CPU) (pos data : Nat) : CPU :=
  let c1 := c.memWrite pos (data &&& 0xFF)
  c1.memWrite ((pos + 1) % 0x10000) ((data >>> 8) % 256)

/-- `CPU::did_page_cross`. -/
def CPU.didPageCross (c : CPU) (mode : AddressingMode) : Bool × CPU :=
  match mode with
  | .Absolute_X =>
    let b := c.memReadU16 c.programCounter
    (decide ((b.1 &&& 0xFF00) ≠ ((b.1 + c.registerX) % 0x10000 &&& 0xFF00)), b.2)
  | .Absolute_Y =>
    let b := c.memReadU16 c.programCounter
    (decide ((b.1 &&& 0xFF00) ≠ ((b.1 + c.registerY) % 0x10000 &&& 0xFF00)), b.2)
  | .Indirect_Y =>
    let base := c.memRead c.programCounter
    let lo := base.2.memRead base.1
    let hi := lo.2.memRead ((base.1 + 1) % 256)
    let derefBase := (hi.1 <<< 8) ||| lo.1
    (decide ((derefBase &&& 0xFF00) ≠ ((derefBase + c.registerY) % 0x10000 &&& 0xFF00)), hi.2)
  | _ => (false, c)

/-- `CPU::opcode_has_page_cross_penalty`. -/
def opcodeHasPageCrossPenalty (code : Nat) : Bool :=
  decide (code ∈ [0xbd, 0xb9, 0xb1, 0x7d, 0x79, 0x71, 0xfd, 0xf9, 0xf1,
                  0x3d, 0x39, 0x31, 0x5d, 0x59, 0x51, 0x1d, 0x19, 0x11,
                  0xdd, 0xd9, 0xd1, 0xbe, 0xbc])

/-- `CPU::get_operand_address`.  The `NoneAddressing` arm panics in the
source (an invariant violation per spec §7, never dispatched); it is
modelled as address 0. -/
def CPU.getOperandAddress (c : CPU) (mode : AddressingMode) : Nat × CPU :=
  match mode with
  | .Immediate => (c.programCounter, c)
  | .ZeroPage => c.memRead c.programCounter
  | .Absolute => c.memReadU16 c.programCounter
  | .ZeroPage_X =>
    let r := c.memRead c.programCounter
    ((r.1 + c.registerX) % 256, r.2)
  | .ZeroPage_Y =>
    let r := c.memRead c.programCounter
    ((r.1 + c.registerY) % 256, r.2)
  | .Absolute_X =>
    let r := c.memReadU16 c.programCounter
    ((r.1 + c.registerX) % 0x10000, r.2)
  | .Absolute_Y =>
    let r := c.memReadU16 c.programCounter
    ((r.1 + c.registerY) % 0x10000, r.2)
  | .Indirect_X =>
    let b := c.memRead c.programCounter
    let ptr := (b.1 + c.registerX) % 256
    let lo := b.2.memRead ptr
    let hi := lo.2.memRead ((ptr + 1) % 256)
    ((hi.1 <<< 8) ||| lo.1, hi.2)
  | .Indirect_Y =>
    let b := c.memRead c.programCounter
    let lo := b.2.memRead b.1
    let hi := lo.2.memRead ((b.1 + 1) % 256)
    let derefBase := (hi.1 <<< 8) ||| lo.1
    ((derefBase + c.registerY) % 0x10000, hi.2)
  | .NoneAddressing => (0, c)

/-- `CPU::update_zero_and_negative_flags` acting on the status byte. -/
def updateZeroAndNegativeFlags (s result : Nat) : Nat :=
  let s1 := if result = 0 then insertFlag s CpuFlags.ZERO else removeFlag s CpuFlags.ZERO
  if result >>> 7 = 1 then insertFlag s1 CpuFlags.NEGATIV else removeFlag s1 CpuFlags.NEGATIV

/-- `CPU::update_negative_flags` acting on the status byte. -/
def updateNegativeFlags (s result : Nat) : Nat :=
  if result >>> 7 = 1 then insertFlag s CpuFlags.NEGATIV else removeFlag s CpuFlags.NEGATIV

/-- `CPU::set_register_a`. -/
def CPU.setRegisterA (c : CPU) (value : Nat) : CPU :=
  { c with registerA := value, status := updateZeroAndNegativeFlags c.status value }

/-- `CPU::add_to_register_a`: 9-bit sum with carry-in; CARRY from the
overflowing sum, OVERFLOW from `(M ^ r) & (r ^ A) & 0x80`. -/
def CPU.addToRegisterA (c : CPU) (data : Nat) : CPU :=
  let sum := c.registerA + data + (if containsFlag c.status CpuFlags.CARRY then 1 else 0)
  let s1 := if 0xFF < sum then insertFlag c.status CpuFlags.CARRY
            else removeFlag c.status CpuFlags.CARRY
  let result := sum % 256
  let s2 := if (data ^^^ result) &&& (result ^^^ c.registerA) &&& 0x80 ≠ 0 then
              insertFlag s1 CpuFlags.OVERFLOW
            else removeFlag s1 CpuFlags.OVERFLOW
  CPU.setRegisterA { c with status := s2 } result

/-- `CPU::lda`. -/
def CPU.lda (c : CPU) (mode : AddressingMode) : CPU :=
  let a := c.getOperandAddress mode
  let v := a.2.memRead a.1
  v.2.setRegisterA v.1

/-- `CPU::ldx`. -/
def CPU.ldx (c : CPU) (mode : AddressingMode) : CPU :=
  let a := c.getOperandAddress mode
  let v := a.2.memRead a.1
  { v.2 with registerX := v.1, status := updateZeroAndNegativeFlags v.2.status v.1 }

/-- `CPU::ldy`. -/
def CPU.ldy (c : CPU) (mode : AddressingMode) : CPU :=
  let a := c.getOperandAddress mode
  let v := a.2.memRead a.1
  { v.2 with registerY := v.1, status := updateZeroAndNegativeFlags v.2.status v.1 }

/-- `CPU::sta`. -/
def CPU.sta (c : CPU) (mode : AddressingMode) : CPU :=
  let a := c.getOperandAddress mode
  a.2.memWrite a.1 c.registerA

/-- `CPU::and`. -/
def CPU.andA (c : CPU) (mode : AddressingMode) : CPU :=
  let a := c.getOperandAddress mode
  let v := a.2.memRead a.1
  v.2.setRegisterA (v.1 &&& c.registerA)

/-- `CPU::eor`. -/
def CPU.eor (c : CPU) (mode : AddressingMode) : CPU :=
  let a := c.getOperandAddress mode
  let v := a.2.memRead a.1
  v.2.setRegisterA (v.1 ^^^ c.registerA)

/-- `CPU::ora`. -/
def CPU.ora (c : CPU) (mode : AddressingMode) : CPU :=
  let a := c.getOperandAddress mode
  let v := a.2.memRead a.1
  v.2.setRegisterA (v.1 ||| c.registerA)

/-- `CPU::adc`. -/
def CPU.adc (c : CPU) (mode : AddressingMode) : CPU :=
  let a := c.getOperandAddress mode
  let v := a.2.memRead a.1
  v.2.addToRegisterA v.1

/-- `CPU::sbc`: `add_to_register_a` of the byte
`((data as i8).wrapping_neg().wrapping_sub(1)) as u8`. -/
def CPU.sbc (c : CPU) (mode : AddressingMode) : CPU :=
  let a := c.getOperandAddress mode
  let v := a.2.memRead a.1
  v.2.addToRegisterA (sbcOperand v.1)

/-- `CPU::asl_accumulator`. -/
def CPU.aslAccumulator (c : CPU) : CPU :=
  let data := c.registerA
  let s1 := if data >>> 7 = 1 then insertFlag c.status CpuFlags.CARRY
            else removeFlag c.status CpuFlags.CARRY
  CPU.setRegisterA { c with status := s1 } ((data <<< 1) % 256)

/-- `CPU::asl` (memory form; returns the written byte as the source does). -/
def CPU.asl (c : CPU) (mode : AddressingMode) : CPU × Nat :=
  let a := c.getOperandAddress mode
  let v := a.2.memRead a.1
  let s1 := if v.1 >>> 7 = 1 then insertFlag v.2.status CpuFlags.CARRY
            else removeFlag v.2.status CpuFlags.CARRY
  let data := (v.1 <<< 1) % 256
  let c1 := CPU.memWrite { v.2 with status := s1 } a.1 data
  ({ c1 with status := updateZeroAndNegativeFlags c1.status data }, data)

/-- `CPU::lsr_accumulator`. -/
def CPU.lsrAccumulator (c : CPU) : CPU :=
  let data := c.registerA
  let s1 := if data &&& 1 = 1 then insertFlag c.status CpuFlags.CARRY
            else removeFlag c.status CpuFlags.CARRY
  CPU.setRegisterA { c with status := s1 } (data >>> 1)

/-- `CPU::lsr` (memory form). -/
def CPU.lsr (c : CPU) (mode : AddressingMode) : CPU × Nat :=
  let a := c.getOperandAddress mode
  let v := a.2.memRead a.1
  let s1 := if v.1 &&& 1 = 1 then insertFlag v.2.status CpuFlags.CARRY
            else removeFlag v.2.status CpuFlags.CARRY
  let data := v.1 >>> 1
  let c1 := CPU.memWrite { v.2 with status := s1 } a.1 data
  ({ c1 with status := updateZeroAndNegativeFlags c1.status data }, data)

/-- `CPU::rol` (memory form): CARRY from bit 7, old CARRY shifted in at
bit 0, then `update_negative_flags` only. -/
def CPU.rol (c : CPU) (mode : AddressingMode) : CPU × Nat :=
  let a := c.getOperandAddress mode
  let v := a.2.memRead a.1
  let oldCarry := containsFlag v.2.status CpuFlags.CARRY
  let s1 := if v.1 >>> 7 = 1 then insertFlag v.2.status CpuFlags.CARRY
            else removeFlag v.2.status CpuFlags.CARRY
  let data := ((v.1 <<< 1) % 256) ||| (if oldCarry then 1 else 0)
  let c1 := CPU.memWrite { v.2 with status := s1 } a.1 data
  ({ c1 with status := updateNegativeFlags c1.status data }, data)

/-- `CPU::rol_accumulator`. -/
def CPU.rolAccumulator (c : CPU) : CPU :=
  let data := c.registerA
  let oldCarry := containsFlag c.status CpuFlags.CARRY
  let s1 := if data >>> 7 = 1 then insertFlag c.status CpuFlags.CARRY
            else removeFlag c.status CpuFlags.CARRY
  CPU.setRegisterA { c with status := s1 }
    (((data <<< 1) % 256) ||| (if oldCarry then 1 else 0))

/-- `CPU::ror` (memory form): CARRY from bit 0, old CARRY shifted in at
bit 7, then `update_negative_flags` only. -/
def CPU.ror (c : CPU) (mode : AddressingMode) : CPU × Nat :=
  let a := c.getOperandAddress mode
  let v := a.2.memRead a.1
  let oldCarry := containsFlag v.2.status CpuFlags.CARRY
  let s1 := if v.1 &&& 1 = 1 then insertFlag v.2.status CpuFlags.CARRY
            else removeFlag v.2.status CpuFlags.CARRY
  let data := (v.1 >>> 1) ||| (if oldCarry then 0b10000000 else 0)
  let c1 := CPU.memWrite { v.2 with status := s1 } a.1 data
  ({ c1 with status := updateNegativeFlags c1.status data }, data)

/-- `CPU::ror_accumulator`. -/
def CPU.rorAccumulator (c : CPU) : CPU :=
  let data := c.registerA
  let oldCarry := containsFlag c.status CpuFlags.CARRY
  let s1 := if data &&& 1 = 1 then insertFlag c.status CpuFlags.CARRY
            else removeFlag c.status CpuFlags.CARRY
  CPU.setRegisterA { c with status := s1 }
    ((data >>> 1) ||| (if oldCarry then 0b10000000 else 0))

/-- `CPU::inc`. -/
def CPU.inc (c : CPU) (mode : AddressingMode) : CPU × Nat :=
  let a := c.getOperandAddress mode
  let v := a.2.memRead a.1
  let data := (v.1 + 1) % 256
  let c1 := v.2.memWrite a.1 data
  ({ c1 with status := updateZeroAndNegativeFlags c1.status data }, data)

/-- `CPU::dec`. -/
def CPU.dec (c : CPU) (mode : AddressingMode) : CPU × Nat :=
  let a := c.getOperandAddress mode
  let v := a.2.memRead a.1
  let data := (v.1 + 255) % 256
  let c1 := v.2.memWrite a.1 data
  ({ c1 with status := updateZeroAndNegativeFlags c1.status data }, data)

/-- `CPU::branch`: returns (taken, page_crossed) and the successor state. -/
def CPU.branch (c : CPU) (condition : Bool) : Bool × Bool × CPU :=
  if !condition then (false, false, c)
  else
    let j := c.memRead c.programCounter
    let base := (j.2.programCounter + 1) % 0x10000
    let jumpAddr := (base + i8AsU16 j.1) % 0x10000
    let pageCrossed := decide ((base &&& 0xFF00) ≠ (jumpAddr &&& 0xFF00))
    (true, pageCrossed, { j.2 with programCounter := jumpAddr })

/-- `CPU::stack_push`. -/
def CPU.stackPush (c : CPU) (data : Nat) : CPU :=
  let c1 := c.memWrite (0x0100 + c.stackPointer) data
  { c1 with stackPointer := (c1.stackPointer + 255) % 256 }

/-- `CPU::stack_pop`. -/
def CPU.stackPop (c : CPU) : Nat × CPU :=
  let sp := (c.stackPointer + 1) % 256
  let r := CPU.memRead { c with stackPointer := sp } (0x0100 + sp)
  (r.1, r.2)

/-- `CPU::stack_push_u16` (high byte first). -/
def CPU.stackPushU16 (c : CPU) (data : Nat) : CPU :=
  let c1 := c.stackPush ((data >>> 8) % 256)
  c1.stackPush (data &&& 0xFF)

/-- `CPU::stack_pop_u16`. -/
def CPU.stackPopU16 (c : CPU) : Nat × CPU :=
  let lo := c.stackPop
  let hi := lo.2.stackPop
  ((hi.1 <<< 8) ||| lo.1, hi.2)

/-- `CPU::bit`. -/
def CPU.bit (c : CPU) (mode : AddressingMode) : CPU :=
  let a := c.getOperandAddress mode
  let v := a.2.memRead a.1
  let s1 := if c.registerA &&& v.1 = 0 then insertFlag v.2.status CpuFlags.ZERO
            else removeFlag v.2.status CpuFlags.ZERO
  let s2 := setFlag s1 CpuFlags.NEGATIV (decide (0 < v.1 &&& 0b10000000))
  let s3 := setFlag s2 CpuFlags.OVERFLOW (decide (0 < v.1 &&& 0b01000000))
  { v.2 with status := s3 }

/-- `CPU::plp`. -/
def CPU.plp (c : CPU) : CPU :=
  let r := c.stackPop
  { r.2 with status := insertFlag (removeFlag r.1 CpuFlags.BREAK) CpuFlags.BREAK2 }

/-- `CPU::php` (BREAK and BREAK2 forced set on the pushed copy). -/
def CPU.php (c : CPU) : CPU :=
  c.stackPush (insertFlag (insertFlag c.status CpuFlags.BREAK) CpuFlags.BREAK2)

/-- `CPU::pla`. -/
def CPU.pla (c : CPU) : CPU :=
  let r := c.stackPop
  r.2.setRegisterA r.1

/-- `CPU::compare`. -/
def CPU.compare (c : CPU) (mode : AddressingMode) (compareWith : Nat) : CPU :=
  let a := c.getOperandAddress mode
  let v := a.2.memRead a.1
  let s1 := if v.1 ≤ compareWith then insertFlag v.2.status CpuFlags.CARRY
            else removeFlag v.2.status CpuFlags.CARRY
  { v.2 with status := updateZeroAndNegativeFlags s1 ((compareWith + 256 - v.1) % 256) }

/-- `CPU::load`: copies the program to `$0600` in the internal byte array
and writes the reset vector. -/
def CPU.load (c : CPU) (program : List Nat) : CPU :=
  let c1 := { c with memory := writeList c.memory 0x0600 program }
  c1.memWriteU16 0xFFFC 0x0600

/-- `CPU::load_prg_rom`: clears both mapper references, then copies a
16 KiB PRG twice (mirrored) or a 32 KiB PRG once into internal memory;
any other length fails with `InvalidPrgSize`.  The returned pair carries
the post-call state and the optional error. -/
def CPU.loadPrgRom (c : CPU) (prg : List Nat) : CPU × Option CpuLoadError :=
  let c1 := { c with mapper := none, ppu := c.ppu.setMapper none }
  if prg.length = 0x4000 then
    ({ c1 with memory := writeList (writeList c1.memory 0x8000 prg) 0xC000 prg }, none)
  else if prg.length = 0x8000 then
    ({ c1 with memory := writeList c1.memory 0x8000 prg }, none)
  else
    (c1, some (.invalidPrgSize prg.length))

/-- `CPU::load_cartridge`: rejects mappers other than 0, builds the NROM
mapper, then wires mirroring and the shared mapper handle into the PPU
and the CPU. -/
def CPU.loadCartridge (c : CPU) (rom : Rom) : CPU × Option CpuLoadError :=
  if rom.mapper ≠ 0 then
    (c, some (.unsupportedMapper rom.mapper))
  else
    match NromMapper.new rom.prg_rom rom.chr_rom rom.has_chr_ram with
    | .error (.invalidPrgSize size) => (c, some (.invalidPrgSize size))
    | .ok m =>
      let c1 := { c with ppu := (c.ppu.setMirroring rom.mirroring).setMapper (some m) }
      ({ c1 with mapper := some m }, none)

/-- `CPU::reset`. -/
def CPU.reset (c : CPU) : CPU :=
  let c1 := { c with registerA := 0, registerX := 0, registerY := 0,
                     stackPointer := 0xFD, status := 0b100100, cycles := 0 }
  let r := c1.memReadU16 0xFFFC
  { r.2 with programCounter := r.1 }

/-- `CPU::total_cycles`. -/
def CPU.totalCycles (c : CPU) : Nat := c.cycles

/-- Result of dispatching one opcode in `try_run_with_callback`:
a normal handler (with the extra cycles added by a branch arm), the
early `return Ok(())` of the BRK arm, or the wildcard
`UnsupportedOpcode` arm. -/
inductive DispatchResult
  | normal (c : CPU) (branchExtra : Nat)
  | brkHalt (c : CPU)
  | unsupported

/-- The inner `match code` of `try_run_with_callback`, one arm per source
arm.  Branch arms convert the (taken, page_crossed) pair of `branch`
into their `extra_cycles` increments. -/
def dispatch (c : CPU) (code : Nat) (mode : AddressingMode) : DispatchResult :=
  match code with
  | 0xa9 | 0xa5 | 0xb5 | 0xad | 0xbd | 0xb9 | 0xa1 | 0xb1 => .normal (c.lda mode) 0
  | 0x85 | 0x95 | 0x8d | 0x9d | 0x99 | 0x81 | 0x91 => .normal (c.sta mode) 0
  | 0xd8 => .normal { c with status := removeFlag c.status CpuFlags.DECIMAL_MODE } 0
  | 0x58 => .normal { c with status := removeFlag c.status CpuFlags.INTERRUPT_DISABLE } 0
  | 0xb8 => .normal { c with status := removeFlag c.status CpuFlags.OVERFLOW } 0
  | 0x18 => .normal { c with status := removeFlag c.status CpuFlags.CARRY } 0
  | 0x38 => .normal { c with status := insertFlag c.status CpuFlags.CARRY } 0
  | 0x78 => .normal { c with status := insertFlag c.status CpuFlags.INTERRUPT_DISABLE } 0
  | 0xf8 => .normal { c with status := insertFlag c.status CpuFlags.DECIMAL_MODE } 0
  | 0xaa => .normal { c with registerX := c.registerA,
                             status := updateZeroAndNegativeFlags c.status c.registerA } 0
  | 0xe8 => .normal { c with registerX := (c.registerX + 1) % 256,
                             status := updateZeroAndNegativeFlags c.status ((c.registerX + 1) % 256) } 0
  | 0x00 => .brkHalt c
  | 0x48 => .normal (c.stackPush c.registerA) 0
  | 0x68 => .normal c.pla 0
  | 0x08 => .normal c.php 0
  | 0x28 => .normal c.plp 0
  | 0xea => .normal c 0
  | 0x69 | 0x65 | 0x75 | 0x6d | 0x7d | 0x79 | 0x61 | 0x71 => .normal (c.adc mode) 0
  | 0xe9 | 0xe5 | 0xf5 | 0xed | 0xfd | 0xf9 | 0xe1 | 0xf1 => .normal (c.sbc mode) 0
  | 0x29 | 0x25 | 0x35 | 0x2d | 0x3d | 0x39 | 0x21 | 0x31 => .normal (c.andA mode) 0
  | 0x49 | 0x45 | 0x55 | 0x4d | 0x5d | 0x59 | 0x41 | 0x51 => .normal (c.eor mode) 0
  | 0x09 | 0x05 | 0x15 | 0x0d | 0x1d | 0x19 | 0x01 | 0x11 => .normal (c.ora mode) 0
  | 0x0a => .normal c.aslAccumulator 0
  | 0x06 | 0x16 | 0x0e | 0x1e => .normal (c.asl mode).1 0
  | 0x4a => .normal c.lsrAccumulator 0
  | 0x46 | 0x56 | 0x4e | 0x5e => .normal (c.lsr mode).1 0
  | 0x2a => .normal c.rolAccumulator 0
  | 0x26 | 0x36 | 0x2e | 0x3e => .normal (c.rol mode).1 0
  | 0x6a => .normal c.rorAccumulator 0
  | 0x66 | 0x76 | 0x6e | 0x7e => .normal (c.ror mode).1 0
  | 0xe6 | 0xf6 | 0xee | 0xfe => .normal (c.inc mode).1 0
  | 0xc8 => .normal { c with registerY := (c.registerY + 1) % 256,
                             status := updateZeroAndNegativeFlags c.status ((c.registerY + 1) % 256) } 0
  | 0xc6 | 0xd6 | 0xce | 0xde => .normal (c.dec mode).1 0
  | 0xca => .normal { c with registerX := (c.registerX + 255) % 256,
                             status := updateZeroAndNegativeFlags c.status ((c.registerX + 255) % 256) } 0
  | 0x88 => .normal { c with registerY := (c.registerY + 255) % 256,
                             status := updateZeroAndNegativeFlags c.status ((c.registerY + 255) % 256) } 0
  | 0xc9 | 0xc5 | 0xd5 | 0xcd | 0xdd | 0xd9 | 0xc1 | 0xd1 => .normal (c.compare mode c.registerA) 0
  | 0xc0 | 0xc4 | 0xcc => .normal (c.compare mode c.registerY) 0
  | 0xe0 | 0xe4 | 0xec => .normal (c.compare mode c.registerX) 0
  | 0x4c =>
    let r := c.memReadU16 c.programCounter
    .normal { r.2 with programCounter := r.1 } 0
  | 0x6c =>
    let r := c.memReadU16 c.programCounter
    if r.1 &&& 0x00FF = 0x00FF then
      let lo := r.2.memRead r.1
      let hi := lo.2.memRead (r.1 &&& 0xFF00)
      .normal { hi.2 with programCounter := (hi.1 <<< 8) ||| lo.1 } 0
    else
      let ind := r.2.memReadU16 r.1
      .normal { ind.2 with programCounter := ind.1 } 0
  | 0x20 =>
    let c1 := c.stackPushU16 ((c.programCounter + 2 - 1) % 0x10000)
    let t := c1.memReadU16 c1.programCounter
    .normal { t.2 with programCounter := t.1 } 0
  | 0x60 =>
    let r := c.stackPopU16
    .normal { r.2 with programCounter := (r.1 + 1) % 0x10000 } 0
  | 0x40 =>
    let s := c.stackPop
    let c1 := { s.2 with status := insertFlag (removeFlag s.1 CpuFlags.BREAK) CpuFlags.BREAK2 }
    let r := c1.stackPopU16
    .normal { r.2 with programCounter := r.1 } 0
  | 0xd0 =>
    let r := c.branch (!containsFlag c.status CpuFlags.ZERO)
    .normal r.2.2 ((if r.1 then 1 else 0) + (if r.2.1 then 1 else 0))
  | 0x70 =>
    let r := c.branch (containsFlag c.status CpuFlags.OVERFLOW)
    .normal r.2.2 ((if r.1 then 1 else 0) + (if r.2.1 then 1 else 0))
  | 0x50 =>
    let r := c.branch (!containsFlag c.status CpuFlags.OVERFLOW)
    .normal r.2.2 ((if r.1 then 1 else 0) + (if r.2.1 then 1 else 0))
  | 0x10 =>
    let r := c.branch (!containsFlag c.status CpuFlags.NEGATIV)
    .normal r.2.2 ((if r.1 then 1 else 0) + (if r.2.1 then 1 else 0))
  | 0x30 =>
    let r := c.branch (containsFlag c.status CpuFlags.NEGATIV)
    .normal r.2.2 ((if r.1 then 1 else 0) + (if r.2.1 then 1 else 0))
  | 0xf0 =>
    let r := c.branch (containsFlag c.status CpuFlags.ZERO)
    .normal r.2.2 ((if r.1 then 1 else 0) + (if r.2.1 then 1 else 0))
  | 0xb0 =>
    let r := c.branch (containsFlag c.status CpuFlags.CARRY)
    .normal r.2.2 ((if r.1 then 1 else 0) + (if r.2.1 then 1 else 0))
  | 0x90 =>
    let r := c.branch (!containsFlag c.status CpuFlags.CARRY)
    .normal r.2.2 ((if r.1 then 1 else 0) + (if r.2.1 then 1 else 0))
  | 0x24 | 0x2c => .normal (c.bit mode) 0
  | 0xa2 | 0xa6 | 0xb6 | 0xae | 0xbe => .normal (c.ldx mode) 0
  | 0xa0 | 0xa4 | 0xb4 | 0xac | 0xbc => .normal (c.ldy mode) 0
  | 0x86 | 0x96 | 0x8e =>
    let a := c.getOperandAddress mode
    .normal (a.2.memWrite a.1 c.registerX) 0
  | 0x84 | 0x94 | 0x8c =>
    let a := c.getOperandAddress mode
    .normal (a.2.memWrite a.1 c.registerY) 0
  | 0xa8 => .normal { c with registerY := c.registerA,
                             status := updateZeroAndNegativeFlags c.status c.registerA } 0
  | 0xba => .normal { c with registerX := c.stackPointer,
                             status := updateZeroAndNegativeFlags c.status c.stackPointer } 0
  | 0x8a => .normal { c with registerA := c.registerX,
                             status := updateZeroAndNegativeFlags c.status c.registerX } 0
  | 0x9a => .normal { c with stackPointer := c.registerX } 0
  | 0x98 => .normal { c with registerA := c.registerY,
                             status := updateZeroAndNegativeFlags c.status c.registerY } 0
  | _ => .unsupported

/-- Outcome of one iteration of the `try_run_with_callback` loop. -/
inductive StepResult
  | next (c : CPU)
  | halted (c : CPU)
  | failed (e : CpuError) (c : CPU)

/-- The body of the `try_run_with_callback` loop after the opcode byte has
been fetched and the program counter incremented past it: table lookup,
page-cross penalty, dispatch, conditional advance by `len - 1`, and the
cycle charge `base + extra` (BRK charges only its base and returns). -/
def stepAfterFetch (code opcodePc : Nat) (c1 : CPU) : StepResult :=
  let pcState := c1.programCounter
  match opcodesMap code with
  | none => .failed (.unsupportedOpcode code opcodePc) c1
  | some op =>
    let pe := if opcodeHasPageCrossPenalty code then c1.didPageCross op.mode else (false, c1)
    let extra : Nat := if pe.1 then 1 else 0
    match dispatch pe.2 code op.mode with
    | .unsupported => .failed (.unsupportedOpcode code opcodePc) pe.2
    | .brkHalt c3 => .halted { c3 with cycles := c3.cycles + op.cycles }
    | .normal c3 eb =>
      let c4 := if pcState = c3.programCounter then
                  { c3 with programCounter := (c3.programCounter + (op.len - 1)) % 0x10000 }
                else c3
      .next { c4 with cycles := c4.cycles + op.cycles + extra + eb }

/-- One iteration of the `try_run_with_callback` loop: fetch the opcode
byte at PC (a bus read that may mutate the PPU), record `opcode_pc`,
increment PC, then `stepAfterFetch`. -/
def step (c : CPU) : StepResult :=
  let f := c.memRead c.programCounter
  stepAfterFetch f.1 f.2.programCounter
    { f.2 with programCounter := (f.2.programCounter + 1) % 0x10000 }

/-- `try_run_with_callback`, fuelled: iterate `step` until BRK halts the
loop (`Ok`), an unsupported opcode surfaces (`Err`), or fuel runs out
(`none`; the source loops forever).  The observer callback is pure
observation and is omitted. -/
def tryRun : Nat → CPU → Option (CPU × Option CpuError)
  | 0, _ => none
  | fuel + 1, c =>
    match step c with
    | .halted c1 => some (c1, none)
    | .failed e c1 => some (c1, some e)
    | .next c1 => tryRun fuel c1

/-- The opcode byte the next `step` will fetch. -/
def fetchedCode (c : CPU) : Nat := (c.memRead c.programCounter).1

/-- The CPU state after the next `step`'s opcode fetch and PC increment. -/
def postFetch (c : CPU) : CPU :=
  { (c.memRead c.programCounter).2 with
    programCounter := ((c.memRead c.programCounter).2.programCounter + 1) % 0x10000 }

/-- Address of the instruction following a 2-byte branch: the `base` used
by `CPU::branch` for the page-cross test, namely PC+1 where PC points at
the branch operand. -/
def branchBase (c : CPU) : Nat := ((postFetch c).programCounter + 1) % 0x10000

/-- The signed offset byte a branch at the current PC would read. -/
def branchOffsetByte (c : CPU) : Nat :=
  ((postFetch c).memRead (postFetch c).programCounter).1

/-- The branch target `base + offset` computed by `CPU::branch`. -/
def branchTarget (c : CPU) : Nat :=
  (branchBase c + i8AsU16 (branchOffsetByte c)) % 0x10000

/-- The flag condition each branch opcode tests, exactly as the dispatch
arms pass it to `CPU::branch`. -/
def branchCond (code status : Nat) : Bool :=
  match code with
  | 0xd0 => !containsFlag status CpuFlags.ZERO
  | 0x70 => containsFlag status CpuFlags.OVERFLOW
  | 0x50 => !containsFlag status CpuFlags.OVERFLOW
  | 0x10 => !containsFlag status CpuFlags.NEGATIV
  | 0x30 => containsFlag status CpuFlags.NEGATIV
  | 0xf0 => containsFlag status CpuFlags.ZERO
  | 0xb0 => containsFlag status CpuFlags.CARRY
  | 0x90 => !containsFlag status CpuFlags.CARRY
  | _ => false

/-- The eight branch opcodes. -/
def branchOpcodes : List Nat := [0xd0, 0x70, 0x50, 0x10, 0x30, 0xf0, 0xb0, 0x90]

/-- Successor CPU state carried by a `StepResult`. -/
def stepState : StepResult → CPU
  | .next c => c
  | .halted c => c
  | .failed _ c => c

/-- The opcode / pc payload of a failing `StepResult`, together with the
program counter and cycle counter of the CPU state it leaves behind. -/
def failedInfo : StepResult → Option (Nat × Nat × Nat × Nat)
  | .failed (.unsupportedOpcode o pc) c => some (o, pc, c.programCounter, c.cycles)
  | _ => none

/-- Concrete states for the spec's seed scenario 6: the branch program
`[0xA9, 0x00, 0xF0, 0x02, 0xEA, 0x00]` loaded at `$0600` and reset, and
its three interpreter steps (LDA, BEQ, BRK). -/
def c5s0 : CPU := CPU.reset (CPU.load CPU.new [0xA9, 0x00, 0xF0, 0x02, 0xEA, 0x00])

def c5s1 : CPU := stepState (step c5s0)

def c5s2 : CPU := stepState (step c5s1)

def c5s3 : CPU := stepState (step c5s2)

/-- A CPU about to fetch the unknown opcode byte `0x02`. -/
def c2w : CPU := CPU.reset (CPU.load CPU.new [0x02])

/-- A CPU about to execute `ROL $10` (via `dispatch`) with `$10 = 0x80`,
CARRY clear and ZERO clear: the rotated result is `0x00`. -/
def c3cex : CPU :=
  { CPU.new with programCounter := 0x200,
                 memory := memUpdate (memUpdate (fun _ => 0) 0x200 0x10) 0x10 0x80 }

/-- A well-formed NROM cartridge image (16 KiB PRG, 8 KiB CHR). -/
def romGood : Rom :=
  { prg_rom := List.replicate 0x4000 0, chr_rom := List.replicate 0x2000 0,
    mapper := 0, mirroring := .Horizontal, has_chr_ram := false }

/-- The same image with a non-NROM mapper number. -/
def romBadMapper : Rom := { romGood with mapper := 1 }

/-- A CPU with a mapper installed by a successful `load_cartridge`. -/
def cWithMapper : CPU := (CPU.new.loadCartridge romGood).1

/-- The NROM mapper value `NromMapper::new` builds from `romGood`. -/
def mapperGood : NromMapper :=
  { prg_rom := List.replicate 0x4000 0, chr := List.replicate 0x2000 0, chr_is_ram := false }

/-- PPU witness states. -/
def ppuH : Ppu := Ppu.new .Horizontal

def ppuV : Ppu := Ppu.new .Vertical

def ppuW10 : Ppu := { Ppu.new .Horizontal with vramAddr := 0x3F10 }

def ppuW14 : Ppu := { Ppu.new .Horizontal with vramAddr := 0x3F14 }

def ppuW18 : Ppu := { Ppu.new .Horizontal with vramAddr := 0x3F18 }

def ppuW1C : Ppu := { Ppu.new .Horizontal with vramAddr := 0x3F1C }

def ppuW00 : Ppu := { Ppu.new .Horizontal with vramAddr := 0x3F00 }

/-- A CPU in RAM about to fetch a BEQ with offset 2. -/
def c5bw : CPU := { CPU.new with memory := writeList (fun _ => 0) 0 [0xF0, 0x02] }

/-- The memory addressing modes of the shift/rotate opcodes. -/
def memShiftModes : List AddressingMode := [.ZeroPage, .ZeroPage_X, .Absolute, .Absolute_X]

/-- The shape `stepAfterFetch` reduces to on a branch opcode: run
`CPU.branch` with the arm's condition, collect its two extra cycles,
advance PC by `len - 1 = 1` when the handler left it at the operand, and
charge `base 2 + penalty 0 + branch extras`. -/
def branchStep (c1 : CPU) (cond : Bool) : StepResult :=
  let r := c1.branch cond
  let eb := (if r.1 then 1 else 0) + (if r.2.1 then 1 else 0)
  let c4 := if c1.programCounter = r.2.2.programCounter then
              { r.2.2 with programCounter := (r.2.2.programCounter + 1) % 0x10000 }
            else r.2.2
  .next { c4 with cycles := c4.cycles + 2 + 0 + eb }

/-! ## Theorems -/

/-- `containsFlag` of a single-bit mask is `testBit`. -/
theorem containsFlag_pow (s k : Nat) : containsFlag s (2 ^ k) = s.testBit k := by
  unfold containsFlag
  rw [Nat.and_two_pow]
  have h2 : (0 : Nat) ≠ 2 ^ k := (Nat.pos_pow_of_pos k (by norm_num : (0:Nat) < 2)).ne
  cases h : s.testBit k
  · simp only [Bool.toNat_false, Nat.zero_mul]
    exact beq_eq_false_iff_ne.mpr h2
  · simp only [Bool.toNat_true, Nat.one_mul, beq_self_eq_true]

/-- Inserting a single-bit flag, observed at a (possibly different)
single-bit flag. -/
theorem containsFlag_insertFlag_pow (s j k : Nat) :
    containsFlag (insertFlag s (2 ^ j)) (2 ^ k) =
      (containsFlag s (2 ^ k) || decide (j = k)) := by
  rw [containsFlag_pow, containsFlag_pow]
  unfold insertFlag
  rw [Nat.testBit_lor, Nat.testBit_two_pow]

/-- Removing a single-bit flag (with bit index below the u8 width),
observed at a single-bit flag. -/
theorem containsFlag_removeFlag_pow (s j k : Nat) (hk : k < 8) :
    containsFlag (removeFlag s (2 ^ j)) (2 ^ k) =
      (containsFlag s (2 ^ k) && !decide (j = k)) := by
  rw [containsFlag_pow, containsFlag_pow]
  unfold removeFlag
  rw [Nat.testBit_land, Nat.testBit_xor]
  have h255 : (0xFF : Nat).testBit k = true := by
    have : (0xFF : Nat) = 2 ^ 8 - 1 := by norm_num
    rw [this, Nat.testBit_two_pow_sub_one]
    simpa using hk
  rw [h255, Nat.testBit_two_pow]
  cases h : s.testBit k <;> cases hjk : (j == k) <;> simp_all

theorem cf_insert_ZERO_ZERO (s : Nat) : containsFlag (insertFlag s 2) 2 = true := by
  have h := containsFlag_insertFlag_pow s 1 1
  norm_num at h
  exact h

theorem cf_remove_ZERO_ZERO (s : Nat) : containsFlag (removeFlag s 2) 2 = false := by
  have h := containsFlag_removeFlag_pow s 1 1 (by norm_num)
  norm_num at h
  exact h

theorem cf_insert_NEG_ZERO (s : Nat) : containsFlag (insertFlag s 128) 2 = containsFlag s 2 := by
  have h := containsFlag_insertFlag_pow s 7 1
  norm_num at h
  exact h

theorem cf_remove_NEG_ZERO (s : Nat) : containsFlag (removeFlag s 128) 2 = containsFlag s 2 := by
  have h := containsFlag_removeFlag_pow s 7 1 (by norm_num)
  norm_num at h
  exact h

theorem cf_insert_NEG_NEG (s : Nat) : containsFlag (insertFlag s 128) 128 = true := by
  have h := containsFlag_insertFlag_pow s 7 7
  norm_num at h
  exact h

theorem cf_remove_NEG_NEG (s : Nat) : containsFlag (removeFlag s 128) 128 = false := by
  have h := containsFlag_removeFlag_pow s 7 7 (by norm_num)
  norm_num at h
  exact h

theorem cf_insert_ZERO_NEG (s : Nat) : containsFlag (insertFlag s 2) 128 = containsFlag s 128 := by
  have h := containsFlag_insertFlag_pow s 1 7
  norm_num at h
  exact h

theorem cf_remove_ZERO_NEG (s : Nat) : containsFlag (removeFlag s 2) 128 = containsFlag s 128 := by
  have h := containsFlag_removeFlag_pow s 1 7 (by norm_num)
  norm_num at h
  exact h

theorem cf_insert_CARRY_ZERO (s : Nat) : containsFlag (insertFlag s 1) 2 = containsFlag s 2 := by
  have h := containsFlag_insertFlag_pow s 0 1
  norm_num at h
  exact h

theorem cf_remove_CARRY_ZERO (s : Nat) : containsFlag (removeFlag s 1) 2 = containsFlag s 2 := by
  have h := containsFlag_removeFlag_pow s 0 1 (by norm_num)
  norm_num at h
  exact h

/-- ZERO after `update_zero_and_negative_flags` is exactly `result == 0`. -/
theorem contains_ZERO_updateZN (s r : Nat) :
    containsFlag (updateZeroAndNegativeFlags s r) CpuFlags.ZERO = decide (r = 0) := by
  unfold updateZeroAndNegativeFlags
  by_cases h0 : r = 0 <;> by_cases h7 : r >>> 7 = 1 <;>
    simp [h0, h7, cf_insert_ZERO_ZERO, cf_remove_ZERO_ZERO, cf_insert_NEG_ZERO,
          cf_remove_NEG_ZERO]

/-- NEGATIV after `update_zero_and_negative_flags` is exactly bit 7 of the
result (as the source tests it, `result >> 7 == 1`). -/
theorem contains_NEGATIV_updateZN (s r : Nat) :
    containsFlag (updateZeroAndNegativeFlags s r) CpuFlags.NEGATIV = decide (r >>> 7 = 1) := by
  unfold updateZeroAndNegativeFlags
  by_cases h0 : r = 0 <;> by_cases h7 : r >>> 7 = 1 <;>
    simp [h0, h7, cf_insert_NEG_NEG, cf_remove_NEG_NEG]

/-- NEGATIV after `update_negative_flags`. -/
theorem contains_NEGATIV_updateN (s r : Nat) :
    containsFlag (updateNegativeFlags s r) CpuFlags.NEGATIV = decide (r >>> 7 = 1) := by
  unfold updateNegativeFlags
  by_cases h7 : r >>> 7 = 1 <;> simp [h7, cf_insert_NEG_NEG, cf_remove_NEG_NEG]

/-- `update_negative_flags` does not touch ZERO. -/
theorem contains_ZERO_updateN (s r : Nat) :
    containsFlag (updateNegativeFlags s r) CpuFlags.ZERO = containsFlag s CpuFlags.ZERO := by
  unfold updateNegativeFlags
  by_cases h7 : r >>> 7 = 1 <;> simp [h7, cf_insert_NEG_ZERO, cf_remove_NEG_ZERO]

/-- Setting or clearing CARRY does not touch ZERO. -/
theorem contains_ZERO_carry (s : Nat) (b : Bool) :
    containsFlag (if b then insertFlag s CpuFlags.CARRY else removeFlag s CpuFlags.CARRY)
      CpuFlags.ZERO = containsFlag s CpuFlags.ZERO := by
  cases b <;> simp [cf_insert_CARRY_ZERO, cf_remove_CARRY_ZERO]

/-- Setting or clearing CARRY by a propositional test does not touch ZERO. -/
theorem contains_ZERO_carryP (s : Nat) (P : Prop) [Decidable P] :
    containsFlag (if P then insertFlag s CpuFlags.CARRY else removeFlag s CpuFlags.CARRY)
      CpuFlags.ZERO = containsFlag s CpuFlags.ZERO := by
  split <;> simp [cf_insert_CARRY_ZERO, cf_remove_CARRY_ZERO]

/-- A CPU bus read leaves the state unchanged except (possibly) for the
PPU component. -/
theorem memRead_snd_cases (c : CPU) (a : Nat) :
    (c.memRead a).2 = c ∨
      (c.memRead a).2 =
        { c with ppu := (c.ppu.readRegister (0x2000 + (a - 0x2000) % 8)).2 } := by
  by_cases h1 : 0x4000 ≤ a ∧ a ≤ 0x4017
  · exact Or.inl (by simp only [CPU.memRead, if_pos h1])
  · by_cases h2 : 0x2000 ≤ a ∧ a ≤ 0x3FFF
    · exact Or.inr (by simp only [CPU.memRead, if_neg h1, if_pos h2])
    · by_cases h3 : 0x8000 ≤ a ∧ a ≤ 0xFFFF
      · rcases hm : c.mapper with _ | m
        · exact Or.inl (by simp only [CPU.memRead, if_neg h1, if_neg h2, if_pos h3, hm])
        · rcases hr : m.cpuRead a with _ | dd
          · exact Or.inl
              (by simp only [CPU.memRead, if_neg h1, if_neg h2, if_pos h3, hm, hr])
          · exact Or.inl
              (by simp only [CPU.memRead, if_neg h1, if_neg h2, if_pos h3, hm, hr])
      · exact Or.inl (by simp only [CPU.memRead, if_neg h1, if_neg h2, if_neg h3])

theorem memRead_cycles (c : CPU) (a : Nat) : (c.memRead a).2.cycles = c.cycles := by
  rcases memRead_snd_cases c a with h | h <;> rw [h]

theorem memRead_status (c : CPU) (a : Nat) : (c.memRead a).2.status = c.status := by
  rcases memRead_snd_cases c a with h | h <;> rw [h]

theorem memRead_programCounter (c : CPU) (a : Nat) :
    (c.memRead a).2.programCounter = c.programCounter := by
  rcases memRead_snd_cases c a with h | h <;> rw [h]

theorem memRead_registerA (c : CPU) (a : Nat) : (c.memRead a).2.registerA = c.registerA := by
  rcases memRead_snd_cases c a with h | h <;> rw [h]

theorem memRead_registerX (c : CPU) (a : Nat) : (c.memRead a).2.registerX = c.registerX := by
  rcases memRead_snd_cases c a with h | h <;> rw [h]

theorem memRead_registerY (c : CPU) (a : Nat) : (c.memRead a).2.registerY = c.registerY := by
  rcases memRead_snd_cases c a with h | h <;> rw [h]

theorem memRead_stackPointer (c : CPU) (a : Nat) :
    (c.memRead a).2.stackPointer = c.stackPointer := by
  rcases memRead_snd_cases c a with h | h <;> rw [h]

theorem memRead_memory (c : CPU) (a : Nat) : (c.memRead a).2.memory = c.memory := by
  rcases memRead_snd_cases c a with h | h <;> rw [h]

theorem memRead_mapper (c : CPU) (a : Nat) : (c.memRead a).2.mapper = c.mapper := by
  rcases memRead_snd_cases c a with h | h <;> rw [h]

/-- A CPU bus write only ever mutates memory, APU or PPU. -/
theorem memWrite_cases (c : CPU) (a d : Nat) :
    c.memWrite a d = c ∨
      c.memWrite a d = { c with memory := memUpdate c.memory a d } ∨
      c.memWrite a d = { c with apu := c.apu.writeRegister a d } ∨
      c.memWrite a d =
        { c with ppu := c.ppu.writeRegister (0x2000 + (a - 0x2000) % 8) d } := by
  by_cases h1 : 0x4000 ≤ a ∧ a ≤ 0x4017
  · exact Or.inr (Or.inr (Or.inl (by simp only [CPU.memWrite, if_pos h1])))
  · by_cases h2 : 0x2000 ≤ a ∧ a ≤ 0x3FFF
    · exact Or.inr (Or.inr (Or.inr (by simp only [CPU.memWrite, if_neg h1, if_pos h2])))
    · by_cases h3 : 0x8000 ≤ a ∧ a ≤ 0xFFFF
      · rcases hm : c.mapper with _ | m
        · exact Or.inr (Or.inl
            (by simp only [CPU.memWrite, if_neg h1, if_neg h2, if_pos h3, hm]))
        · rcases hw : m.cpuWrite a d
          · exact Or.inr (Or.inl (by
              simp only [CPU.memWrite, if_neg h1, if_neg h2, if_pos h3, hm, hw]
              simp))
          · exact Or.inl (by
              simp only [CPU.memWrite, if_neg h1, if_neg h2, if_pos h3, hm, hw]
              simp)
      · exact Or.inr (Or.inl (by simp only [CPU.memWrite, if_neg h1, if_neg h2, if_neg h3]))

theorem memWrite_status (c : CPU) (a d : Nat) : (c.memWrite a d).status = c.status := by
  rcases memWrite_cases c a d with h | h | h | h <;> rw [h]

theorem memWrite_cycles (c : CPU) (a d : Nat) : (c.memWrite a d).cycles = c.cycles := by
  rcases memWrite_cases c a d with h | h | h | h <;> rw [h]

theorem memWrite_programCounter (c : CPU) (a d : Nat) :
    (c.memWrite a d).programCounter = c.programCounter := by
  rcases memWrite_cases c a d with h | h | h | h <;> rw [h]

theorem memWrite_stackPointer (c : CPU) (a d : Nat) :
    (c.memWrite a d).stackPointer = c.stackPointer := by
  rcases memWrite_cases c a d with h | h | h | h <;> rw [h]

theorem postFetch_cycles (c : CPU) : (postFetch c).cycles = c.cycles := by
  unfold postFetch
  exact memRead_cycles c c.programCounter

theorem postFetch_status (c : CPU) : (postFetch c).status = c.status := by
  unfold postFetch
  exact memRead_status c c.programCounter

theorem postFetch_programCounter (c : CPU) :
    (postFetch c).programCounter = (c.programCounter + 1) % 0x10000 := by
  unfold postFetch
  rw [memRead_programCounter]

/-- Fetching the opcode and bumping PC, expressed through `postFetch`. -/
theorem step_eq_stepAfterFetch (c : CPU) :
    step c = stepAfterFetch (fetchedCode c) c.programCounter (postFetch c) := by
  simp only [step, fetchedCode, postFetch, memRead_programCounter]

/-- A bus read at an address in `$8000-$FFFF` never changes the state. -/
theorem memRead_snd_high (c : CPU) (a : Nat) (h3 : 0x8000 ≤ a ∧ a ≤ 0xFFFF) :
    (c.memRead a).2 = c := by
  have h1 : ¬(0x4000 ≤ a ∧ a ≤ 0x4017) := by omega
  have h2 : ¬(0x2000 ≤ a ∧ a ≤ 0x3FFF) := by omega
  rcases hm : c.mapper with _ | m
  · simp only [CPU.memRead, if_neg h1, if_neg h2, if_pos h3, hm]
  · rcases hr : m.cpuRead a with _ | d <;>
      simp only [CPU.memRead, if_neg h1, if_neg h2, if_pos h3, hm, hr]

/-- The value of a bus read in the PRG window does not depend on the
registers `reset` clears. -/
theorem memRead_fst_resetRegs (c : CPU) (a : Nat) (h3 : 0x8000 ≤ a ∧ a ≤ 0xFFFF) :
    (CPU.memRead { c with registerA := 0, registerX := 0, registerY := 0,
                          stackPointer := 0xFD, status := 0b100100, cycles := 0 } a).1
      = (c.memRead a).1 := by
  have h1 : ¬(0x4000 ≤ a ∧ a ≤ 0x4017) := by omega
  have h2 : ¬(0x2000 ≤ a ∧ a ≤ 0x3FFF) := by omega
  rcases hm : c.mapper with _ | m
  · simp only [CPU.memRead, if_neg h1, if_neg h2, if_pos h3, hm]
  · rcases hr : m.cpuRead a with _ | d <;>
      simp only [CPU.memRead, if_neg h1, if_neg h2, if_pos h3, hm, hr]

theorem memReadU16_registerA (c : CPU) (p : Nat) :
    (c.memReadU16 p).2.registerA = c.registerA := by
  simp only [CPU.memReadU16]
  rw [memRead_registerA, memRead_registerA]

theorem memReadU16_registerX (c : CPU) (p : Nat) :
    (c.memReadU16 p).2.registerX = c.registerX := by
  simp only [CPU.memReadU16]
  rw [memRead_registerX, memRead_registerX]

theorem memReadU16_registerY (c : CPU) (p : Nat) :
    (c.memReadU16 p).2.registerY = c.registerY := by
  simp only [CPU.memReadU16]
  rw [memRead_registerY, memRead_registerY]

theorem memReadU16_stackPointer (c : CPU) (p : Nat) :
    (c.memReadU16 p).2.stackPointer = c.stackPointer := by
  simp only [CPU.memReadU16]
  rw [memRead_stackPointer, memRead_stackPointer]

theorem memReadU16_status (c : CPU) (p : Nat) :
    (c.memReadU16 p).2.status = c.status := by
  simp only [CPU.memReadU16]
  rw [memRead_status, memRead_status]

theorem memReadU16_cycles (c : CPU) (p : Nat) :
    (c.memReadU16 p).2.cycles = c.cycles := by
  simp only [CPU.memReadU16]
  rw [memRead_cycles, memRead_cycles]

theorem memReadU16_programCounter (c : CPU) (p : Nat) :
    (c.memReadU16 p).2.programCounter = c.programCounter := by
  simp only [CPU.memReadU16]
  rw [memRead_programCounter, memRead_programCounter]

/-- The page-cross probe only performs bus reads: the cycle counter of the
state it returns is unchanged. -/
theorem didPageCross_snd_cycles (c : CPU) (mode : AddressingMode) :
    (c.didPageCross mode).2.cycles = c.cycles := by
  cases mode <;>
    simp only [CPU.didPageCross, memReadU16_cycles, memRead_cycles]

/-- The page-cross probe does not move the program counter. -/
theorem didPageCross_snd_programCounter (c : CPU) (mode : AddressingMode) :
    (c.didPageCross mode).2.programCounter = c.programCounter := by
  cases mode <;>
    simp only [CPU.didPageCross, memReadU16_programCounter, memRead_programCounter]

/-- Operand-address computation only performs bus reads: status unchanged. -/
theorem getOperandAddress_status (c : CPU) (mode : AddressingMode) :
    (c.getOperandAddress mode).2.status = c.status := by
  cases mode <;>
    simp only [CPU.getOperandAddress, memReadU16_status, memRead_status]

/-- Unfolding `tryRun` one step when the step continues. -/
theorem tryRun_next (fuel : Nat) (c c1 : CPU) (h : step c = .next c1) :
    tryRun (fuel + 1) c = tryRun fuel c1 := by
  simp only [tryRun]
  rw [h]

/-- Unfolding `tryRun` one step when the step halts on BRK. -/
theorem tryRun_halted (fuel : Nat) (c c1 : CPU) (h : step c = .halted c1) :
    tryRun (fuel + 1) c = some (c1, none) := by
  simp only [tryRun]
  rw [h]

/-- C4.  After `reset`, A = X = Y = 0, SP = 0xFD, the status byte is
exactly `0b00100100` (INTERRUPT_DISABLE and BREAK2), the cycle counter
is 0, and PC is the little-endian word the bus reads at `$FFFC`. -/
theorem c4_reset_contract (c : CPU) :
    c.reset.registerA = 0 ∧ c.reset.registerX = 0 ∧ c.reset.registerY = 0 ∧
    c.reset.stackPointer = 0xFD ∧ c.reset.status = 0b00100100 ∧
    c.reset.cycles = 0 ∧ c.reset.programCounter = (c.memReadU16 0xFFFC).1 := by
  refine ⟨?_, ?_, ?_, ?_, ?_, ?_, ?_⟩
  · simp only [CPU.reset]
    rw [memReadU16_registerA]
  · simp only [CPU.reset]
    rw [memReadU16_registerX]
  · simp only [CPU.reset]
    rw [memReadU16_registerY]
  · simp only [CPU.reset]
    rw [memReadU16_stackPointer]
  · simp only [CPU.reset]
    rw [memReadU16_status]
  · simp only [CPU.reset]
    rw [memReadU16_cycles]
  · simp only [CPU.reset, CPU.memReadU16]
    have e : (0xFFFC + 1) % 0x10000 = 0xFFFD := by norm_num
    rw [e]
    rw [memRead_snd_high _ 0xFFFC (by norm_num), memRead_snd_high _ 0xFFFC (by norm_num)]
    rw [memRead_fst_resetRegs c 0xFFFD (by norm_num), memRead_fst_resetRegs c 0xFFFC (by norm_num)]

/-- C7.  Reading PPU register `$2002` returns the STATUS byte as it was,
then clears its bit 7 and resets both write latches, changing nothing
else; the second conjunct spells out that bit 7 of the new STATUS is
clear. -/
theorem c7_status_read (p : Ppu) :
    p.readRegister 0x2002 =
      (p.status,
       { p with status := p.status &&& 0x7F, addrLatch := false, scrollLatch := false }) ∧
    ((p.readRegister 0x2002).2.status).testBit 7 = false := by
  constructor
  · rfl
  · show ((p.status &&& 0x7F)).testBit 7 = false
    rw [Nat.testBit_land]
    have h : (0x7F : Nat).testBit 7 = false := by decide
    rw [h, Bool.and_false]

/-- Nametable index of `$2000 + o` is `o` under every mirroring mode. -/
theorem mirrorVramAddr_2000 (p : Ppu) (o : Nat) (ho : o < 0x400) :
    p.mirrorVramAddr (0x2000 + o) = o := by
  simp only [Ppu.mirrorVramAddr]
  have hidx : 0x2000 + o - 0x2000 = o := by omega
  rw [hidx]
  have ht : o / 0x400 = 0 := by omega
  have hof : o % 0x400 = o := by omega
  rw [ht, hof]
  cases p.mirroring <;> simp

/-- Under Horizontal mirroring, `$2400 + o` lands on the same physical
byte as `$2000 + o`. -/
theorem mirrorVramAddr_horizontal_2400 (p : Ppu) (hp : p.mirroring = .Horizontal)
    (o : Nat) (ho : o < 0x400) : p.mirrorVramAddr (0x2400 + o) = o := by
  simp only [Ppu.mirrorVramAddr, hp]
  have hidx : 0x2400 + o - 0x2000 = 0x400 + o := by omega
  rw [hidx]
  have ht : (0x400 + o) / 0x400 = 1 := by omega
  have hof : (0x400 + o) % 0x400 = o := by omega
  rw [ht, hof]
  simp

/-- Under Vertical mirroring, `$2800 + o` lands on the same physical byte
as `$2000 + o`. -/
theorem mirrorVramAddr_vertical_2800 (p : Ppu) (hp : p.mirroring = .Vertical)
    (o : Nat) (ho : o < 0x400) : p.mirrorVramAddr (0x2800 + o) = o := by
  simp only [Ppu.mirrorVramAddr, hp]
  have hidx : 0x2800 + o - 0x2000 = 0x800 + o := by omega
  rw [hidx]
  have ht : (0x800 + o) / 0x400 = 2 := by omega
  have hof : (0x800 + o) % 0x400 = o := by omega
  rw [ht, hof]
  simp

/-- Reading a nametable address `$2000 + o` goes to internal VRAM at the
mirrored index. -/
theorem ppuMemRead_nametable (p : Ppu) (o : Nat) (ho : o < 0x400) :
    p.ppuMemRead (0x2000 + o) = p.vram (p.mirrorVramAddr (0x2000 + o)) := by
  simp only [Ppu.ppuMemRead]
  rw [if_neg (by omega : ¬(0x2000 + o ≤ 0x1FFF)), if_pos (by omega : 0x2000 + o ≤ 0x2FFF)]

/-- C9.  Nametable mirroring: under Horizontal a byte written at
`$2400+o` reads back at `$2000+o`; under Vertical a byte written at
`$2800+o` reads back at `$2000+o`; and under every mode a read in
`$3000-$3EFF` equals the read at `addr - 0x1000`. -/
theorem c9_mirroring :
    (∀ o, o < 0x400 → ∀ (p : Ppu) (d : Nat), p.mirroring = .Horizontal →
      Ppu.ppuMemRead (p.ppuMemWrite (0x2400 + o) d) (0x2000 + o) = d) ∧
    (∀ o, o < 0x400 → ∀ (p : Ppu) (d : Nat), p.mirroring = .Vertical →
      Ppu.ppuMemRead (p.ppuMemWrite (0x2800 + o) d) (0x2000 + o) = d) ∧
    (∀ (p : Ppu) (a : Nat), 0x3000 ≤ a → a ≤ 0x3EFF →
      p.ppuMemRead a = p.ppuMemRead (a - 0x1000)) := by
  refine ⟨?_, ?_, ?_⟩
  · intro o ho p d hp
    simp only [Ppu.ppuMemWrite]
    rw [if_neg (by omega : ¬(0x2400 + o ≤ 0x1FFF)),
        if_pos (by omega : 0x2400 + o ≤ 0x2FFF)]
    rw [mirrorVramAddr_horizontal_2400 p hp o ho]
    rw [ppuMemRead_nametable _ o ho]
    rw [mirrorVramAddr_2000 _ o ho]
    show memUpdate p.vram o d o = d
    simp [memUpdate]
  · intro o ho p d hp
    simp only [Ppu.ppuMemWrite]
    rw [if_neg (by omega : ¬(0x2800 + o ≤ 0x1FFF)),
        if_pos (by omega : 0x2800 + o ≤ 0x2FFF)]
    rw [mirrorVramAddr_vertical_2800 p hp o ho]
    rw [ppuMemRead_nametable _ o ho]
    rw [mirrorVramAddr_2000 _ o ho]
    show memUpdate p.vram o d o = d
    simp [memUpdate]
  · intro p a h1 h2
    simp only [Ppu.ppuMemRead]
    rw [if_neg (by omega : ¬(a ≤ 0x1FFF)), if_neg (by omega : ¬(a ≤ 0x2FFF)),
        if_pos h2]
    rw [if_neg (by omega : ¬(a - 0x1000 ≤ 0x1FFF)),
        if_pos (by omega : a - 0x1000 ≤ 0x2FFF)]

/-- C9 witness: instantiates the three mirroring laws at `o = 3`,
`a = 0x3000`, on freshly-created PPUs. -/
theorem c9_mirroring_witness :
    Ppu.ppuMemRead (ppuH.ppuMemWrite (0x2400 + 3) 0x42) (0x2000 + 3) = 0x42 ∧
    Ppu.ppuMemRead (ppuV.ppuMemWrite (0x2800 + 3) 0x37) (0x2000 + 3) = 0x37 ∧
    ppuH.ppuMemRead 0x3000 = ppuH.ppuMemRead (0x3000 - 0x1000) := by
  refine ⟨?_, ?_, ?_⟩
  · exact c9_mirroring.1 3 (by norm_num) ppuH 0x42 rfl
  · exact c9_mirroring.2.1 3 (by norm_num) ppuV 0x37 rfl
  · exact c9_mirroring.2.2 ppuH 0x3000 (by norm_num) (by norm_num)

/-- C10.  Every mapper accepted by `NromMapper::new` serves `Some` byte
for each address in `$8000-$FFFF` (the PRG index stays in bounds, so the
source's indexing cannot panic) and `None` below `$8000`. -/
theorem c10_nrom_total (prg chr : List Nat) (hcr : Bool) (m : NromMapper)
    (hnew : NromMapper.new prg chr hcr = .ok m) :
    (∀ addr, 0x8000 ≤ addr → addr ≤ 0xFFFF → (m.cpuRead addr).isSome = true) ∧
    (∀ addr, addr < 0x8000 → m.cpuRead addr = none) := by
  unfold NromMapper.new at hnew
  by_cases hl : prg.length = 0x4000 ∨ prg.length = 0x8000
  · rw [if_pos hl] at hnew
    have hprg : m.prg_rom = prg := by
      cases hnew
      rfl
    constructor
    · intro addr h8 hF
      unfold NromMapper.cpuRead
      rw [if_pos ⟨h8, hF⟩, hprg]
      rcases hl with hl | hl
      · rw [if_pos hl]
        have hlt : (addr - 0x8000) % 0x4000 < prg.length := by
          rw [hl]
          exact Nat.mod_lt _ (by norm_num)
        simp [List.getElem?_eq_getElem hlt]
      · rw [if_neg (by rw [hl]; norm_num)]
        have hlt : addr - 0x8000 < prg.length := by omega
        simp [List.getElem?_eq_getElem hlt]
    · intro addr hlow
      unfold NromMapper.cpuRead
      rw [if_neg (by omega)]
  · rw [if_neg hl] at hnew
    exact absurd hnew (by simp)

/-- C10 witness: the 16 KiB all-zero PRG mapper built by `new` answers at
`$8000` and refuses `$7FFF`. -/
theorem c10_nrom_total_witness :
    (mapperGood.cpuRead 0x8000).isSome = true ∧ mapperGood.cpuRead 0x7FFF = none := by
  have hnew : NromMapper.new (List.replicate 0x4000 0) (List.replicate 0x2000 0) false
      = .ok mapperGood := by
    unfold NromMapper.new
    rw [if_pos (Or.inl (List.length_replicate 0x4000 0))]
    rfl
  have h := c10_nrom_total (List.replicate 0x4000 0) (List.replicate 0x2000 0) false
    mapperGood hnew
  exact ⟨h.1 0x8000 (by norm_num) (by norm_num), h.2 0x7FFF (by norm_num)⟩



/-- Writing to the PPU address space in the palette range stores at the
mirrored palette index. -/
theorem ppuMemWrite_palette (p : Ppu) (a d : Nat) (ha1 : 0x3F00 ≤ a) (ha2 : a ≤ 0x3FFF) :
    p.ppuMemWrite a d =
      { p with paletteTable := memUpdate p.paletteTable (Ppu.mirrorPaletteAddr a) d } := by
  simp only [Ppu.ppuMemWrite]
  rw [if_neg (by omega : ¬(a ≤ 0x1FFF)), if_neg (by omega : ¬(a ≤ 0x2FFF)),
      if_neg (by omega : ¬(a ≤ 0x3EFF)), if_pos ha2]

/-- Reading the PPU address space in the palette range returns the byte at
the mirrored palette index. -/
theorem ppuMemRead_palette (p : Ppu) (a : Nat) (ha1 : 0x3F00 ≤ a) (ha2 : a ≤ 0x3FFF) :
    p.ppuMemRead a = p.paletteTable (Ppu.mirrorPaletteAddr a) := by
  simp only [Ppu.ppuMemRead]
  rw [if_neg (by omega : ¬(a ≤ 0x1FFF)), if_neg (by omega : ¬(a ≤ 0x2FFF)),
      if_neg (by omega : ¬(a ≤ 0x3EFF)), if_pos ha2]

set_option maxRecDepth 4096 in
/-- C8.  Palette aliasing and buffer bypass: a `$2007` write with the
working address at `$3F10`/`$3F14`/`$3F18`/`$3F1C` is stored at palette
index `$00`/`$04`/`$08`/`$0C` and is observable by a read at
`$3F00`/`$3F04`/`$3F08`/`$3F0C`; and for every working address whose
14-bit reduction lies in the palette range, the `$2007` read returns the
fresh palette byte while the internal read buffer is refreshed from
`addr - 0x1000`. -/
theorem c8_palette_alias :
    (∀ (p : Ppu) (d : Nat), p.vramAddr = 0x3F10 →
       (p.writePpuData d).paletteTable 0x00 = d ∧
       Ppu.ppuMemRead (p.writePpuData d) 0x3F00 = d) ∧
    (∀ (p : Ppu) (d : Nat), p.vramAddr = 0x3F14 →
       (p.writePpuData d).paletteTable 0x04 = d ∧
       Ppu.ppuMemRead (p.writePpuData d) 0x3F04 = d) ∧
    (∀ (p : Ppu) (d : Nat), p.vramAddr = 0x3F18 →
       (p.writePpuData d).paletteTable 0x08 = d ∧
       Ppu.ppuMemRead (p.writePpuData d) 0x3F08 = d) ∧
    (∀ (p : Ppu) (d : Nat), p.vramAddr = 0x3F1C →
       (p.writePpuData d).paletteTable 0x0C = d ∧
       Ppu.ppuMemRead (p.writePpuData d) 0x3F0C = d) ∧
    (∀ p : Ppu, 0x3F00 ≤ p.vramAddr &&& 0x3FFF →
       (p.readPpuData).1 = p.ppuMemRead (p.vramAddr &&& 0x3FFF) ∧
       (p.readPpuData).2.readBuffer = p.ppuMemRead ((p.vramAddr &&& 0x3FFF) - 0x1000)) := by
  refine ⟨?_, ?_, ?_, ?_, ?_⟩
  · intro p d hva
    constructor
    · simp only [Ppu.writePpuData, Ppu.normalizePpuAddr, hva]
      rw [show (0x3F10 : Nat) &&& 0x3FFF = 0x3F10 from by decide]
      rw [ppuMemWrite_palette p 0x3F10 d (by norm_num) (by norm_num)]
      rw [show Ppu.mirrorPaletteAddr 0x3F10 = 0x00 from by decide]
      show memUpdate p.paletteTable 0x00 d 0x00 = d
      simp [memUpdate]
    · simp only [Ppu.writePpuData, Ppu.normalizePpuAddr, hva]
      rw [show (0x3F10 : Nat) &&& 0x3FFF = 0x3F10 from by decide]
      rw [ppuMemWrite_palette p 0x3F10 d (by norm_num) (by norm_num)]
      rw [show Ppu.mirrorPaletteAddr 0x3F10 = 0x00 from by decide]
      rw [ppuMemRead_palette _ 0x3F00 (by norm_num) (by norm_num)]
      rw [show Ppu.mirrorPaletteAddr 0x3F00 = 0x00 from by decide]
      show memUpdate p.paletteTable 0x00 d 0x00 = d
      simp [memUpdate]
  · intro p d hva
    constructor
    · simp only [Ppu.writePpuData, Ppu.normalizePpuAddr, hva]
      rw [show (0x3F14 : Nat) &&& 0x3FFF = 0x3F14 from by decide]
      rw [ppuMemWrite_palette p 0x3F14 d (by norm_num) (by norm_num)]
      rw [show Ppu.mirrorPaletteAddr 0x3F14 = 0x04 from by decide]
      show memUpdate p.paletteTable 0x04 d 0x04 = d
      simp [memUpdate]
    · simp only [Ppu.writePpuData, Ppu.normalizePpuAddr, hva]
      rw [show (0x3F14 : Nat) &&& 0x3FFF = 0x3F14 from by decide]
      rw [ppuMemWrite_palette p 0x3F14 d (by norm_num) (by norm_num)]
      rw [show Ppu.mirrorPaletteAddr 0x3F14 = 0x04 from by decide]
      rw [ppuMemRead_palette _ 0x3F04 (by norm_num) (by norm_num)]
      rw [show Ppu.mirrorPaletteAddr 0x3F04 = 0x04 from by decide]
      show memUpdate p.paletteTable 0x04 d 0x04 = d
      simp [memUpdate]
  · intro p d hva
    constructor
    · simp only [Ppu.writePpuData, Ppu.normalizePpuAddr, hva]
      rw [show (0x3F18 : Nat) &&& 0x3FFF = 0x3F18 from by decide]
      rw [ppuMemWrite_palette p 0x3F18 d (by norm_num) (by norm_num)]
      rw [show Ppu.mirrorPaletteAddr 0x3F18 = 0x08 from by decide]
      show memUpdate p.paletteTable 0x08 d 0x08 = d
      simp [memUpdate]
    · simp only [Ppu.writePpuData, Ppu.normalizePpuAddr, hva]
      rw [show (0x3F18 : Nat) &&& 0x3FFF = 0x3F18 from by decide]
      rw [ppuMemWrite_palette p 0x3F18 d (by norm_num) (by norm_num)]
      rw [show Ppu.mirrorPaletteAddr 0x3F18 = 0x08 from by decide]
      rw [ppuMemRead_palette _ 0x3F08 (by norm_num) (by norm_num)]
      rw [show Ppu.mirrorPaletteAddr 0x3F08 = 0x08 from by decide]
      show memUpdate p.paletteTable 0x08 d 0x08 = d
      simp [memUpdate]
  · intro p d hva
    constructor
    · simp only [Ppu.writePpuData, Ppu.normalizePpuAddr, hva]
      rw [show (0x3F1C : Nat) &&& 0x3FFF = 0x3F1C from by decide]
      rw [ppuMemWrite_palette p 0x3F1C d (by norm_num) (by norm_num)]
      rw [show Ppu.mirrorPaletteAddr 0x3F1C = 0x0C from by decide]
      show memUpdate p.paletteTable 0x0C d 0x0C = d
      simp [memUpdate]
    · simp only [Ppu.writePpuData, Ppu.normalizePpuAddr, hva]
      rw [show (0x3F1C : Nat) &&& 0x3FFF = 0x3F1C from by decide]
      rw [ppuMemWrite_palette p 0x3F1C d (by norm_num) (by norm_num)]
      rw [show Ppu.mirrorPaletteAddr 0x3F1C = 0x0C from by decide]
      rw [ppuMemRead_palette _ 0x3F0C (by norm_num) (by norm_num)]
      rw [show Ppu.mirrorPaletteAddr 0x3F0C = 0x0C from by decide]
      show memUpdate p.paletteTable 0x0C d 0x0C = d
      simp [memUpdate]
  · intro p h
    have hX : p.vramAddr &&& 0x3FFF ≤ 0x3FFF := Nat.and_le_right
    constructor
    · simp only [Ppu.readPpuData, Ppu.normalizePpuAddr]
      rw [if_pos h]
    · simp only [Ppu.readPpuData, Ppu.normalizePpuAddr]
      rw [if_pos h]
      have e : ((p.vramAddr &&& 0x3FFF) + 0x10000 - 0x1000) % 0x10000 =
          (p.vramAddr &&& 0x3FFF) - 0x1000 := by omega
      rw [e]

/-- C8 witness: the `$3F10` alias pair and the unbuffered palette read at
a concrete PPU. -/
theorem c8_palette_alias_witness :
    ((ppuW10.writePpuData 0x77).paletteTable 0x00 = 0x77 ∧
      Ppu.ppuMemRead (ppuW10.writePpuData 0x77) 0x3F00 = 0x77) ∧
    ((ppuW00.readPpuData).1 = ppuW00.ppuMemRead (ppuW00.vramAddr &&& 0x3FFF) ∧
      (ppuW00.readPpuData).2.readBuffer =
        ppuW00.ppuMemRead ((ppuW00.vramAddr &&& 0x3FFF) - 0x1000)) := by
  constructor
  · exact c8_palette_alias.1 ppuW10 0x77 rfl
  · exact c8_palette_alias.2.2.2.2 ppuW00 (by decide)

/-- The u8 complement fed by `sbc` to the adder equals `255 - M` for a
byte `M`. -/
theorem sbcOperand_eq (M : Nat) (hM : M < 256) : sbcOperand M = 255 - M := by
  unfold sbcOperand
  omega

/-- A bus read below `$2000` is a plain internal-memory read. -/
theorem memRead_low (c : CPU) (a : Nat) (h : a < 0x2000) : c.memRead a = (c.memory a, c) := by
  simp only [CPU.memRead]
  rw [if_neg (by omega), if_neg (by omega), if_neg (by omega)]

/-- `sbc` in immediate mode with PC in RAM is the adder applied to the
complemented operand byte. -/
theorem sbc_imm_low (c : CPU) (h : c.programCounter < 0x2000) :
    c.sbc .Immediate = c.addToRegisterA (sbcOperand (c.memory c.programCounter)) := by
  simp only [CPU.sbc, CPU.getOperandAddress]
  rw [memRead_low c c.programCounter h]

/-- `adc` in immediate mode with PC in RAM is the adder applied to the
operand byte. -/
theorem adc_imm_low (c : CPU) (h : c.programCounter < 0x2000) :
    c.adc .Immediate = c.addToRegisterA (c.memory c.programCounter) := by
  simp only [CPU.adc, CPU.getOperandAddress]
  rw [memRead_low c c.programCounter h]

/-- The adder's visible result depends only on A, the status byte and the
operand. -/
theorem addToRegisterA_eq_of (c1 c2 : CPU) (d1 d2 : Nat) (hA : c1.registerA = c2.registerA)
    (hS : c1.status = c2.status) (hd : d1 = d2) :
    (c1.addToRegisterA d1).registerA = (c2.addToRegisterA d2).registerA ∧
    (c1.addToRegisterA d1).status = (c2.addToRegisterA d2).status := by
  subst hd
  constructor <;> simp only [CPU.addToRegisterA, CPU.setRegisterA, hA, hS]

/-- C6.  For every starting accumulator, status byte and operand byte M,
the SBC handler on operand M leaves the accumulator and the whole status
byte (hence CARRY, OVERFLOW, ZERO and NEGATIVE) exactly as the ADC
handler on the complement `255 - M` does, from the identical starting
state (stated for an immediate operand fetched from RAM). -/
theorem c6_sbc_adc_duality (c : CPU) (M : Nat) (hM : M < 256)
    (hpc : c.programCounter < 0x2000) :
    (CPU.sbc { c with memory := memUpdate c.memory c.programCounter M } .Immediate).registerA
      = (CPU.adc { c with memory := memUpdate c.memory c.programCounter (255 - M) }
          .Immediate).registerA ∧
    (CPU.sbc { c with memory := memUpdate c.memory c.programCounter M } .Immediate).status
      = (CPU.adc { c with memory := memUpdate c.memory c.programCounter (255 - M) }
          .Immediate).status := by
  rw [sbc_imm_low { c with memory := memUpdate c.memory c.programCounter M } (by exact hpc),
      adc_imm_low { c with memory := memUpdate c.memory c.programCounter (255 - M) } (by exact hpc)]
  have eM : ({ c with memory := memUpdate c.memory c.programCounter M } : CPU).memory
      ({ c with memory := memUpdate c.memory c.programCounter M } : CPU).programCounter = M := by
    simp [memUpdate]
  have eM2 : ({ c with memory := memUpdate c.memory c.programCounter (255 - M) } : CPU).memory
      ({ c with memory := memUpdate c.memory c.programCounter (255 - M) } : CPU).programCounter
      = 255 - M := by
    simp [memUpdate]
  rw [eM, eM2, sbcOperand_eq M hM]
  exact addToRegisterA_eq_of _ _ _ _ rfl rfl rfl

/-- C6 witness: duality at a fresh CPU with operand byte `0x45`. -/
theorem c6_sbc_adc_duality_witness :
    (CPU.sbc { CPU.new with
        memory := memUpdate CPU.new.memory CPU.new.programCounter 0x45 } .Immediate).registerA
      = (CPU.adc { CPU.new with
          memory := memUpdate CPU.new.memory CPU.new.programCounter (255 - 0x45) }
          .Immediate).registerA ∧
    (CPU.sbc { CPU.new with
        memory := memUpdate CPU.new.memory CPU.new.programCounter 0x45 } .Immediate).status
      = (CPU.adc { CPU.new with
          memory := memUpdate CPU.new.memory CPU.new.programCounter (255 - 0x45) }
          .Immediate).status :=
  c6_sbc_adc_duality CPU.new 0x45 (by norm_num) (by decide)

/-- C1 counterexample: the claim as stated is false for `load_prg_rom`.
Starting from a CPU whose mapper was installed by `load_cartridge`, a
failing `load_prg_rom` (PRG of length 1) returns `InvalidPrgSize` yet has
already cleared the CPU's mapper reference: the mapper reference after
the call (`none`) differs from the one before (`some`). -/
theorem c1_load_error_cex :
    (CPU.loadPrgRom cWithMapper [0]).2 = some (.invalidPrgSize 1) ∧
    (CPU.loadPrgRom cWithMapper [0]).1.mapper = none ∧
    cWithMapper.mapper = some mapperGood ∧
    (CPU.loadPrgRom cWithMapper [0]).1.mapper ≠ cWithMapper.mapper := by
  have hm : cWithMapper.mapper = some mapperGood := by
    have hn : NromMapper.new romGood.prg_rom romGood.chr_rom romGood.has_chr_ram
        = .ok mapperGood := by
      simp only [romGood]
      unfold NromMapper.new
      rw [if_pos (Or.inl (List.length_replicate 0x4000 0))]
      rfl
    have hmap : romGood.mapper = 0 := rfl
    unfold cWithMapper CPU.loadCartridge
    rw [if_neg (fun h => h hmap), hn]
  have h2 : (CPU.loadPrgRom cWithMapper [0]).2 = some (.invalidPrgSize 1) := by
    unfold CPU.loadPrgRom
    rw [if_neg (by simp : ¬([0] : List Nat).length = 0x4000),
        if_neg (by simp : ¬([0] : List Nat).length = 0x8000)]
    rfl
  have h1 : (CPU.loadPrgRom cWithMapper [0]).1.mapper = none := by
    unfold CPU.loadPrgRom
    rw [if_neg (by simp : ¬([0] : List Nat).length = 0x4000),
        if_neg (by simp : ¬([0] : List Nat).length = 0x8000)]
  refine ⟨h2, h1, hm, ?_⟩
  rw [h1, hm]
  simp

/-- C1 (amended).  `load_cartridge` leaves the CPU state exactly unchanged
whenever it returns an error.  `load_prg_rom`, when it returns an error,
leaves the registers, status, PC, cycle counter, internal memory and APU
unchanged but has already cleared both the CPU's and the PPU's mapper
references (the source clears them before validating the PRG size). -/
theorem c1_load_errors :
    (∀ (c : CPU) (rom : Rom) (e : CpuLoadError),
       (c.loadCartridge rom).2 = some e → (c.loadCartridge rom).1 = c) ∧
    (∀ (c : CPU) (prg : List Nat) (e : CpuLoadError),
       (c.loadPrgRom prg).2 = some e →
       (c.loadPrgRom prg).1 = { c with mapper := none, ppu := c.ppu.setMapper none }) := by
  constructor
  · intro c rom e h
    unfold CPU.loadCartridge at h ⊢
    by_cases hm : rom.mapper ≠ 0
    · rw [if_pos hm]
    · rw [if_neg hm] at h ⊢
      rcases hn : NromMapper.new rom.prg_rom rom.chr_rom rom.has_chr_ram with err | m
      · rcases err with ⟨size⟩
        rfl
      · rw [hn] at h
        simp at h
  · intro c prg e h
    unfold CPU.loadPrgRom at h ⊢
    by_cases h4 : prg.length = 0x4000
    · rw [if_pos h4] at h
      simp at h
    · rw [if_neg h4] at h ⊢
      by_cases h8 : prg.length = 0x8000
      · rw [if_pos h8] at h
        simp at h
      · rw [if_neg h8]

/-- C1 witness: a rejected cartridge leaves a fresh CPU untouched, and a
rejected raw PRG leaves it with only the mapper references cleared. -/
theorem c1_load_errors_witness :
    (CPU.new.loadCartridge romBadMapper).1 = CPU.new ∧
    (CPU.new.loadPrgRom [0]).1 =
      { CPU.new with mapper := none, ppu := CPU.new.ppu.setMapper none } := by
  constructor
  · exact c1_load_errors.1 CPU.new romBadMapper (.unsupportedMapper 1) (by rfl)
  · exact c1_load_errors.2 CPU.new [0] (.invalidPrgSize 1) (by rfl)

/-- C2 counterexample: the claim that the program counter is still *at*
the unrecognized opcode byte is false.  Fetching the unknown byte `0x02`
at `$0600` fails with `UnsupportedOpcode { opcode = 2, pc = 0x600 }`, but
the CPU's program counter in the surfaced state is `0x601`, one past the
opcode byte (the fetch increments PC before decoding). -/
theorem c2_unsupported_cex :
    failedInfo (step c2w) = some (2, 0x600, 0x601, 0) ∧ (0x601 : Nat) ≠ 0x600 :=
  ⟨rfl, by decide⟩

/-- C2 (amended).  Whenever one interpreter step fails with
`UnsupportedOpcode { opcode, pc }`, `pc` is the address of the
unrecognized opcode byte, `opcode` is that byte, the cycle counter is not
charged anything for the failed byte, and the program counter of the
surfaced state is `pc + 1` (one past the opcode byte), not `pc` itself;
`try_run_with_callback` surfaces exactly this state and error to the
caller. -/
theorem c2_unsupported_opcode :
    (∀ (c : CPU) (code pc : Nat) (c1 : CPU),
       step c = .failed (.unsupportedOpcode code pc) c1 →
       pc = c.programCounter ∧ code = fetchedCode c ∧
       c1.cycles = c.cycles ∧ c1.programCounter = (c.programCounter + 1) % 0x10000) ∧
    (∀ (fuel : Nat) (c c1 : CPU) (e : CpuError),
       step c = .failed e c1 → tryRun (fuel + 1) c = some (c1, some e)) := by
  constructor
  · intro c code pc c1 h
    rw [step_eq_stepAfterFetch] at h
    rcases hop : opcodesMap (fetchedCode c) with _ | op
    · simp only [stepAfterFetch, hop, StepResult.failed.injEq,
                 CpuError.unsupportedOpcode.injEq] at h
      obtain ⟨⟨hc, hp⟩, hs⟩ := h
      refine ⟨hp.symm, hc.symm, ?_, ?_⟩
      · rw [← hs, postFetch_cycles]
      · rw [← hs, postFetch_programCounter]
    · simp only [stepAfterFetch, hop] at h
      by_cases hpen : opcodeHasPageCrossPenalty (fetchedCode c) = true
      · simp only [if_pos hpen] at h
        rcases hd : dispatch ((postFetch c).didPageCross op.mode).2 (fetchedCode c) op.mode
          with ⟨c3, eb⟩ | c3 | _
        · rw [hd] at h
          exact StepResult.noConfusion h
        · rw [hd] at h
          exact StepResult.noConfusion h
        · simp only [hd, StepResult.failed.injEq, CpuError.unsupportedOpcode.injEq] at h
          obtain ⟨⟨hc, hp⟩, hs⟩ := h
          refine ⟨hp.symm, hc.symm, ?_, ?_⟩
          · rw [← hs, didPageCross_snd_cycles, postFetch_cycles]
          · rw [← hs, didPageCross_snd_programCounter, postFetch_programCounter]
      · simp only [if_neg hpen] at h
        rcases hd : dispatch (postFetch c) (fetchedCode c) op.mode with ⟨c3, eb⟩ | c3 | _
        · rw [hd] at h
          exact StepResult.noConfusion h
        · rw [hd] at h
          exact StepResult.noConfusion h
        · simp only [hd, StepResult.failed.injEq, CpuError.unsupportedOpcode.injEq] at h
          obtain ⟨⟨hc, hp⟩, hs⟩ := h
          refine ⟨hp.symm, hc.symm, ?_, ?_⟩
          · rw [← hs, postFetch_cycles]
          · rw [← hs, postFetch_programCounter]
  · intro fuel c c1 e h
    simp only [tryRun]
    rw [h]

/-- C2 witness: the amended theorem applied to the concrete failing state
`c2w` (unknown byte `0x02` at `$0600`). -/
theorem c2_unsupported_opcode_witness :
    (0x600 : Nat) = c2w.programCounter ∧ (2 : Nat) = fetchedCode c2w ∧
    (postFetch c2w).cycles = c2w.cycles ∧
    (postFetch c2w).programCounter = (c2w.programCounter + 1) % 0x10000 ∧
    tryRun 1 c2w = some (postFetch c2w, some (.unsupportedOpcode 2 0x600)) := by
  have h : step c2w = .failed (.unsupportedOpcode 2 0x600) (postFetch c2w) := rfl
  have h1 := c2_unsupported_opcode.1 c2w 2 0x600 (postFetch c2w) h
  have h2 := c2_unsupported_opcode.2 0 c2w (postFetch c2w) (.unsupportedOpcode 2 0x600) h
  exact ⟨h1.1, h1.2.1, h1.2.2.1, h1.2.2.2, h2⟩

/-- C3 counterexample: the claim is false for memory-form ROL.  Executing
`ROL $10` from `c3cex` (operand byte `0x80`, CARRY clear, ZERO clear)
writes the result byte `0x00` back to `$10`, yet the ZERO flag stays
clear: `rol` only calls `update_negative_flags` on the memory form. -/
theorem c3_shift_rotate_cex :
    (CPU.rol c3cex .ZeroPage).2 = 0 ∧
    (CPU.rol c3cex .ZeroPage).1.memory 0x10 = 0 ∧
    containsFlag (CPU.rol c3cex .ZeroPage).1.status CpuFlags.ZERO = false :=
  ⟨rfl, rfl, rfl⟩

/-- C3 (amended).  For memory-form ASL and LSR, after execution ZERO
equals `result = 0` and NEGATIVE equals bit 7 of the byte written back.
For memory-form ROL and ROR, NEGATIVE equals bit 7 of the byte written
back, but ZERO is left exactly as it was before the instruction (the
memory forms call `update_negative_flags`, not the zero-and-negative
updater). -/
theorem c3_shift_rotate_flags :
    (∀ (c : CPU) (mode : AddressingMode), mode ∈ memShiftModes →
       (containsFlag (c.asl mode).1.status CpuFlags.ZERO = decide ((c.asl mode).2 = 0) ∧
        containsFlag (c.asl mode).1.status CpuFlags.NEGATIV
          = decide ((c.asl mode).2 >>> 7 = 1)) ∧
       (containsFlag (c.lsr mode).1.status CpuFlags.ZERO = decide ((c.lsr mode).2 = 0) ∧
        containsFlag (c.lsr mode).1.status CpuFlags.NEGATIV
          = decide ((c.lsr mode).2 >>> 7 = 1))) ∧
    (∀ (c : CPU) (mode : AddressingMode), mode ∈ memShiftModes →
       (containsFlag (c.rol mode).1.status CpuFlags.NEGATIV
          = decide ((c.rol mode).2 >>> 7 = 1) ∧
        containsFlag (c.rol mode).1.status CpuFlags.ZERO = containsFlag c.status CpuFlags.ZERO) ∧
       (containsFlag (c.ror mode).1.status CpuFlags.NEGATIV
          = decide ((c.ror mode).2 >>> 7 = 1) ∧
        containsFlag (c.ror mode).1.status CpuFlags.ZERO
          = containsFlag c.status CpuFlags.ZERO)) := by
  constructor
  · intro c mode _
    refine ⟨⟨?_, ?_⟩, ?_, ?_⟩
    · simp only [CPU.asl, contains_ZERO_updateZN]
    · simp only [CPU.asl, contains_NEGATIV_updateZN]
    · simp only [CPU.lsr, contains_ZERO_updateZN]
    · simp only [CPU.lsr, contains_NEGATIV_updateZN]
  · intro c mode _
    refine ⟨⟨?_, ?_⟩, ?_, ?_⟩
    · simp only [CPU.rol, contains_NEGATIV_updateN]
    · simp only [CPU.rol, contains_ZERO_updateN, memWrite_status, contains_ZERO_carryP,
                 memRead_status, getOperandAddress_status]
    · simp only [CPU.ror, contains_NEGATIV_updateN]
    · simp only [CPU.ror, contains_ZERO_updateN, memWrite_status, contains_ZERO_carryP,
                 memRead_status, getOperandAddress_status]

/-- C3 witness: the amended theorem applied to a fresh CPU (ASL zero-page
sets ZERO from its zero result) and to the concrete ROL state `c3cex`
(ZERO preserved across a zero result). -/
theorem c3_shift_rotate_flags_witness :
    (AddressingMode.ZeroPage ∈ memShiftModes ∧
     containsFlag (CPU.asl CPU.new .ZeroPage).1.status CpuFlags.ZERO
       = decide ((CPU.asl CPU.new .ZeroPage).2 = 0)) ∧
    containsFlag (CPU.rol c3cex .ZeroPage).1.status CpuFlags.ZERO
      = containsFlag c3cex.status CpuFlags.ZERO := by
  constructor
  · exact ⟨by decide, (c3_shift_rotate_flags.1 CPU.new .ZeroPage (by decide)).1.1⟩
  · exact (c3_shift_rotate_flags.2 c3cex .ZeroPage (by decide)).1.2

/-! Reduction of `stepAfterFetch` on each branch opcode: table lookup,
zero page-cross penalty, and the branch dispatch arm collapse to
`branchStep` with the arm's condition. -/

theorem stepAfterFetch_d0 (pc : Nat) (c1 : CPU) :
    stepAfterFetch 0xd0 pc c1 = branchStep c1 (!containsFlag c1.status CpuFlags.ZERO) := rfl

theorem stepAfterFetch_70 (pc : Nat) (c1 : CPU) :
    stepAfterFetch 0x70 pc c1 = branchStep c1 (containsFlag c1.status CpuFlags.OVERFLOW) := rfl

theorem stepAfterFetch_50 (pc : Nat) (c1 : CPU) :
    stepAfterFetch 0x50 pc c1 = branchStep c1 (!containsFlag c1.status CpuFlags.OVERFLOW) := rfl

theorem stepAfterFetch_10 (pc : Nat) (c1 : CPU) :
    stepAfterFetch 0x10 pc c1 = branchStep c1 (!containsFlag c1.status CpuFlags.NEGATIV) := rfl

theorem stepAfterFetch_30 (pc : Nat) (c1 : CPU) :
    stepAfterFetch 0x30 pc c1 = branchStep c1 (containsFlag c1.status CpuFlags.NEGATIV) := rfl

theorem stepAfterFetch_f0 (pc : Nat) (c1 : CPU) :
    stepAfterFetch 0xf0 pc c1 = branchStep c1 (containsFlag c1.status CpuFlags.ZERO) := rfl

theorem stepAfterFetch_b0 (pc : Nat) (c1 : CPU) :
    stepAfterFetch 0xb0 pc c1 = branchStep c1 (containsFlag c1.status CpuFlags.CARRY) := rfl

theorem stepAfterFetch_90 (pc : Nat) (c1 : CPU) :
    stepAfterFetch 0x90 pc c1 = branchStep c1 (!containsFlag c1.status CpuFlags.CARRY) := rfl

/-- A not-taken branch leaves the state untouched apart from skipping the
operand byte and charging the base 2 cycles. -/
theorem branch_false (c : CPU) : c.branch false = (false, false, c) := rfl

theorem branchStep_false (c1 : CPU) :
    branchStep c1 false =
      .next { c1 with programCounter := (c1.programCounter + 1) % 0x10000,
                      cycles := c1.cycles + 2 + 0 + 0 } := by
  simp only [branchStep, branch_false]
  simp

/-- `branchStep` always produces a `.next` outcome. -/
theorem branchStep_next (c1 : CPU) (cond : Bool) :
    branchStep c1 cond = .next (stepState (branchStep c1 cond)) := rfl

/-- The cycle charge of a branch step: base 2, plus, when taken, 1 on the
same page and 2 across a page boundary, measured against `base = PC+1`. -/
theorem branchStep_state_cycles (c1 : CPU) (cond : Bool) :
    (stepState (branchStep c1 cond)).cycles =
      c1.cycles + 2 +
        (if cond then
           (if (((c1.programCounter + 1) % 0x10000) &&& 0xFF00)
               = ((((c1.programCounter + 1) % 0x10000)
                   + i8AsU16 (c1.memRead c1.programCounter).1) % 0x10000 &&& 0xFF00)
            then 1 else 2)
         else 0) := by
  cases cond
  · rw [branchStep_false]
    simp [stepState]
  · have hb : c1.branch true =
        (true,
         decide (((((c1.memRead c1.programCounter).2.programCounter + 1) % 0x10000) &&& 0xFF00)
           ≠ (((((c1.memRead c1.programCounter).2.programCounter + 1) % 0x10000)
               + i8AsU16 (c1.memRead c1.programCounter).1) % 0x10000 &&& 0xFF00)),
         { (c1.memRead c1.programCounter).2 with
           programCounter := ((((c1.memRead c1.programCounter).2.programCounter + 1) % 0x10000)
               + i8AsU16 (c1.memRead c1.programCounter).1) % 0x10000 }) := rfl
    rw [memRead_programCounter] at hb
    simp only [branchStep, hb, stepState]
    rw [apply_ite CPU.cycles]
    simp only [memRead_cycles, ite_self]
    by_cases hp : (((c1.programCounter + 1) % 0x10000) &&& 0xFF00)
        = ((((c1.programCounter + 1) % 0x10000)
            + i8AsU16 (c1.memRead c1.programCounter).1) % 0x10000 &&& 0xFF00)
    · simp [hp]
    · simp [hp]
      split <;> simp

/-- C5 (spec-modelled opcode table entries).  Branch cycle law: for any
state about to fetch one of the eight branch opcodes, the step continues
normally and charges base 2 cycles, plus, when the branch condition
holds, 1 if the target shares a page with `base = PC+1`, else 2.  And
the seed program `[0xA9, 0x00, 0xF0, 0x02, 0xEA, 0x00]` run from reset
halts normally after three steps with `total_cycles = 12`. -/
theorem c5_branch_cycle_law :
    (∀ (c : CPU) (code : Nat), code ∈ branchOpcodes → fetchedCode c = code →
       ∃ c2, step c = .next c2 ∧
         c2.cycles = c.cycles + 2 +
           (if branchCond code c.status then
              (if (branchBase c &&& 0xFF00) = (branchTarget c &&& 0xFF00) then 1 else 2)
            else 0)) ∧
    (tryRun 10 c5s0 = some (c5s3, none) ∧ c5s3.totalCycles = 12) := by
  constructor
  · intro c code hmem hfc
    rw [step_eq_stepAfterFetch, hfc]
    simp only [branchOpcodes] at hmem
    fin_cases hmem
    all_goals
      simp only [stepAfterFetch_d0, stepAfterFetch_70, stepAfterFetch_50, stepAfterFetch_10,
                 stepAfterFetch_30, stepAfterFetch_f0, stepAfterFetch_b0, stepAfterFetch_90]
    all_goals
      refine ⟨_, branchStep_next _ _, ?_⟩
      rw [branchStep_state_cycles, postFetch_cycles, postFetch_status]
      simp only [branchCond, branchBase, branchTarget, branchOffsetByte,
                 postFetch_programCounter]
  · refine ⟨?_, rfl⟩
    have e0 : tryRun 10 c5s0 = tryRun 9 c5s1 := tryRun_next 9 c5s0 c5s1 rfl
    have e1 : tryRun 9 c5s1 = tryRun 8 c5s2 := tryRun_next 8 c5s1 c5s2 rfl
    have e2 : tryRun 8 c5s2 = some (c5s3, none) := tryRun_halted 7 c5s2 c5s3 rfl
    rw [e0, e1, e2]

/-- C5 witness: the branch law applied to the concrete state `c5bw`,
about to fetch a BEQ (`0xF0`). -/
theorem c5_branch_cycle_law_witness :
    (0xf0 : Nat) ∈ branchOpcodes ∧ fetchedCode c5bw = 0xf0 ∧
    ∃ c2, step c5bw = .next c2 ∧
      c2.cycles = c5bw.cycles + 2 +
        (if branchCond 0xf0 c5bw.status then
           (if (branchBase c5bw &&& 0xFF00) = (branchTarget c5bw &&& 0xFF00) then 1 else 2)
         else 0) :=
  ⟨by decide, rfl, c5_branch_cycle_law.1 c5bw 0xf0 (by decide) rfl⟩

end Res
